import Mathlib

/-!
Verification of the Grafana chat-ops plugin (worker.py, grafana.py).

Shallow embedding conventions:
* Python dicts with a fixed key set become structures; dict keys that may be
  absent become `Option` fields; `variable.get(key, default)` booleans are
  stored as accessed, with the default applied.
* Association lists (`List (String × α)`) model Python dicts with dynamic
  keys; `dictSet` models `d[k] = v` (update in place, insertion order kept).
* Jinja2 template rendering is an external collaborator, so the resolver is
  parametric in a `render : String → List (String × PyVal) → String`.
* The Nautobot ORM is an external collaborator: an `Inventory` maps entity
  type names to their object lists, plus the attribute names each type can
  be filtered on (an unknown attribute raises FieldError).
* Exceptions become `Except`; machine integers are unbounded `Int`
  (no overflow is relevant here); times are integer epoch milliseconds.
-/

namespace Grafana

/-- Values stored in the validated-variables mapping: either a raw chat
string, or a resolved inventory record's attribute dictionary
(`filtered_objects[0].__dict__` in worker.py). -/
inductive PyVal where
  | s (v : String)
  | record (attrs : List (String × String))
deriving DecidableEq

/-- Python `str()` of a validated value: a string is itself; a record
renders its attribute dictionary deterministically (modelling `str()` of a
Python dict; the exact text of the dict form is not relied upon). -/
def joinComma : List String → String
  | [] => ""
  | [s] => s
  | s :: rest => s ++ ", " ++ joinComma rest

def pyStr : PyVal → String
  | .s v => v
  | .record attrs =>
      "\x7b" ++ joinComma (attrs.map (fun kv => kv.1 ++ ": " ++ kv.2)) ++ "\x7d"

/-- Python dict assignment `d[k] = v`: replaces the value at an existing
key in place, otherwise appends (insertion order preserved). -/
def dictSet {α : Type} (d : List (String × α)) (k : String) (v : α) : List (String × α) :=
  if d.any (fun kv => kv.1 == k) then
    d.map (fun kv => if kv.1 == k then (k, v) else kv)
  else d ++ [(k, v)]

/-- A Nautobot ORM record: a display name plus its attribute dictionary. -/
structure Record where
  name : String
  attrs : List (String × String)
deriving DecidableEq

/-- `getattr(record, attr)` as used for menu display. -/
def Record.getattrD (r : Record) (k : String) : String :=
  ((r.attrs.lookup k).getD "")

/-- The `dcim.models` registry: entity type name → all objects
(`getattr(models, query).objects.all()`), plus the attribute names each
entity type can be filtered on (filtering on another name raises
`FieldError`). -/
structure Inventory where
  models : List (String × List Record)
  fields : List (String × List String)
deriving DecidableEq

def Inventory.fields_of (inv : Inventory) (model : String) : List String :=
  ((inv.fields.lookup model).getD [])

/-- One panel variable from panels.yml.  `Option` fields model dict keys
that may be absent; the two booleans are stored as accessed, i.e. with
their `.get(key, True)` defaults applied. -/
structure Variable where
  name : String
  friendly_name : Option String := none
  includeincmd : Bool := true
  includeinurl : Bool := true
  query : Option String := none
  modelattr : Option String := none
  filter : Option (List (String × String)) := none
  value : Option String := none
  response : Option String := none
deriving DecidableEq

structure Panel where
  command_name : String
  friendly_name : String
  panel_id : Int
  «variables» : List Variable := []
deriving DecidableEq

structure Dashboard where
  dashboard_slug : String
  dashboard_uid : String
  panels : List Panel := []
deriving DecidableEq

/-- Truthiness of `variable.get("query", False)` (absent key or empty
string are both falsy in Python). -/
def query_truthy (v : Variable) : Bool := (v.query.getD "") != ""

/-- Truthiness of `variable.get("modelattr", False)`. -/
def modelattr_truthy (v : Variable) : Bool := (v.modelattr.getD "") != ""

/-- The two exceptions `chat_validate_nautobot_args` can raise.
`multipleOptions` carries the choices shown by `prompt_from_menu`. -/
inductive ChatErr where
  | panelError (msg : String)
  | multipleOptions (choices : List (String × String))
deriving DecidableEq

/-- worker.get_nautobot_objects: fetch all objects of the entity type named
by `variable["query"]`; `PanelError` when the type is unknown
(AttributeError), when `variable.get("modelattr", False)` is falsy, or when
the fetched set is empty. -/
def get_nautobot_objects (inv : Inventory) (v : Variable) : Except ChatErr (List Record) :=
  match inv.models.lookup (v.query.getD "") with
  | none =>
      .error (.panelError ("I was unable to find class " ++ v.query.getD "" ++ " in dcim.models"))
  | some objs =>
      if !modelattr_truthy v then
        .error (.panelError "When specifying a query, a modelattr is also required")
      else if objs.length < 1 then
        .error (.panelError (v.query.getD "" ++ " returned 0 items in the dcim.model."))
      else .ok objs

/-- Truthiness of `parsed_args.get(variable["name"])`: the user-supplied
value, empty when absent or empty. -/
def user_value (parsed : List (String × String)) (v : Variable) : String :=
  ((parsed.lookup v.name).getD "")

/-- The effective filter of worker.py lines 244-255: start from the
configured static filter map; if the user supplied a non-empty value, set
`_filter[modelattr] = value`; then render every filter value as a template
against the validated variables accumulated so far. -/
def effective_filter (render : String → List (String × PyVal) → String)
    (parsed : List (String × String)) (validated : List (String × PyVal))
    (v : Variable) : List (String × String) :=
  let base := (v.filter.getD [])
  let f1 := if user_value parsed v != "" then
              dictSet base (v.modelattr.getD "") (user_value parsed v)
            else base
  f1.map (fun kv => (kv.1, render kv.2 validated))

/-- Equality-filter semantics of `objects.filter(**f)` on a record. -/
def matches_filter (f : List (String × String)) (r : Record) : Bool :=
  f.all (fun kv => r.attrs.lookup kv.1 == some kv.2)

/-- `objects.filter(**f)`: `FieldError` when a key names no filterable
attribute of the model, else the records matching every pair. -/
def apply_filter (fields : List String) (objs : List Record)
    (f : List (String × String)) : Except Unit (List Record) :=
  if f.all (fun kv => fields.contains kv.1) then
    .ok (objs.filter (matches_filter f))
  else .error ()

/-- The `(name, getattr(obj, modelattr))` pairs shown in the
disambiguation menu. -/
def menu_choices (modelattr : String) (objs : List Record) : List (String × String) :=
  objs.map (fun o => (o.name, o.getattrD modelattr))

/-- worker.py lines 286-287: render the variable's value template (default:
the stringified resolved entry) against the validated variables, and store
the result in the variable's `value` slot. -/
def finishVar (render : String → List (String × PyVal) → String)
    (v : Variable) (validated : List (String × PyVal)) : Variable :=
  let entry := ((validated.lookup v.name).getD (.s ""))
  let tsrc := v.value.getD (pyStr entry)
  { v with value := some (render tsrc validated) }

/-- One iteration of the loop of `chat_validate_nautobot_args` for a single
variable: returns the updated variable (its value slot written; a present
filter map mutated in place through aliasing) and the extended validated
map, or raises. -/
def resolveVar (render : String → List (String × PyVal) → String) (inv : Inventory)
    (parsed : List (String × String)) (validated : List (String × PyVal)) (v : Variable) :
    Except ChatErr (Variable × List (String × PyVal)) :=
  if !query_truthy v then
    let validated' := dictSet validated v.name (.s (user_value parsed v))
    .ok (finishVar render v validated', validated')
  else
    match get_nautobot_objects inv v with
    | .error e => .error e
    | .ok objs =>
      let f := effective_filter render parsed validated v
      match apply_filter (inv.fields_of (v.query.getD "")) objs f with
      | .error _ => .error (.panelError ("I was unable to filter " ++ v.query.getD ""))
      | .ok filtered =>
        match filtered with
        | [rec] =>
          let validated' := dictSet validated v.name (.record rec.attrs)
          let v1 := if v.filter.isSome then { v with filter := some f } else v
          .ok (finishVar render v1 validated', validated')
        | _ =>
          .error (.multipleOptions (menu_choices (v.modelattr.getD "")
            (if filtered.length > 1 then filtered else objs)))

/-- worker.chat_validate_nautobot_args: resolve the panel's variables in
declaration order, threading the validated-variables map; the first raised
error ends the pass (no further variables are resolved).  On success
returns the updated variables and the final validated map. -/
def chat_validate_nautobot_args (render : String → List (String × PyVal) → String)
    (inv : Inventory) (parsed : List (String × String)) :
    List Variable → List (String × PyVal) →
    Except ChatErr (List Variable × List (String × PyVal))
  | [], validated => .ok ([], validated)
  | v :: rest, validated =>
    match resolveVar render inv parsed validated v with
    | .error e => .error e
    | .ok (v', validated') =>
      match chat_validate_nautobot_args render inv parsed rest validated' with
      | .error e => .error e
      | .ok (rest', vf) => .ok (v' :: rest', vf)

/-- grafana.GrafanaConfigSettings, pydantic-validated on every
construction.  `default_timespan` (a `datetime.timedelta`) is integer
milliseconds; `default_theme` is constrained to light/dark by
`Literal["light", "dark"]`. -/
structure GrafanaConfigSettings where
  grafana_url : String
  grafana_api_key : String
  default_width : Int
  default_height : Int
  default_theme : String
  default_timespan : Int
  grafana_org_id : Int
  default_tz : String
  config_file : String
deriving DecidableEq

/-- Digit-string to number, for modelling Python `int()`. -/
def digitsToNat (ds : List Char) : Nat :=
  ds.foldl (fun n c => n * 10 + (c.toNat - Char.toNat (Char.ofNat 48))) 0

/-- Pydantic's coercion of a string to an `int` field (Python `int(str)`):
an optional minus sign followed by digits. -/
def parseIntStr (s : String) : Option Int :=
  match s.data with
  | [] => none
  | c :: ds =>
    if c = Char.ofNat 45 then
      if ds ≠ [] ∧ ds.all Char.isDigit then some (-(digitsToNat ds : Int)) else none
    else if (c :: ds).all Char.isDigit then some ((digitsToNat (c :: ds) : Int)) else none

/-- Pydantic's `Literal["light", "dark"]` check. -/
def validTheme (t : String) : Bool := t == "light" || t == "dark"

/-- The `width` setter of GrafanaHandler: rebuilds the whole config model
(pydantic coerces the chat string to int, raising ValidationError
otherwise); the handler's config is replaced only when validation
succeeds. -/
def set_width (c : GrafanaConfigSettings) (raw : String) : Except String GrafanaConfigSettings :=
  match parseIntStr raw with
  | none => .error "value is not a valid integer"
  | some w => .ok { c with default_width := w }

/-- The `height` setter of GrafanaHandler. -/
def set_height (c : GrafanaConfigSettings) (raw : String) : Except String GrafanaConfigSettings :=
  match parseIntStr raw with
  | none => .error "value is not a valid integer"
  | some h => .ok { c with default_height := h }

/-- The `theme` setter of GrafanaHandler. -/
def set_theme (c : GrafanaConfigSettings) (raw : String) : Except String GrafanaConfigSettings :=
  if validTheme raw then .ok { c with default_theme := raw }
  else .error "unexpected theme value"

/-- The `timespan` setter of GrafanaHandler: an empty (falsy) string is
passed through and rejected by the pydantic timedelta field; otherwise the
string is parsed as an ISO8601 duration (`isodate.parse_duration`, an
external collaborator passed in as `parseDuration`, yielding milliseconds),
raising ISO8601Error on failure. -/
def set_timespan (parseDuration : String → Option Int) (c : GrafanaConfigSettings)
    (raw : String) : Except String GrafanaConfigSettings :=
  if raw == "" then .error "value is not a valid timedelta"
  else
    match parseDuration raw with
    | none => .error "ISO8601Error"
    | some d => .ok { c with default_timespan := d }

/-- The `timezone` setter of GrafanaHandler: any string is a valid tz. -/
def set_timezone (c : GrafanaConfigSettings) (raw : String) : Except String GrafanaConfigSettings :=
  .ok { c with default_tz := raw }

/-- The fixed iteration order of `handler.default_params`. -/
def default_params : List String := ["width", "height", "theme", "timespan", "timezone"]

/-- worker.chat_validate_default_args: apply the five default parameters to
the handler's settings in the fixed order width, height, theme, timespan,
timezone.  Each `setattr` rebuilds and validates a fresh config, installed
only on success; the first failure stops the pass, leaving earlier
successful sets applied, and reports the offending value
(`DefaultArgsError(parsed_args[default_arg], exc)`).  Returns the settings
as left behind and the offending value, if any. -/
def chat_validate_default_args (parseDuration : String → Option Int)
    (c : GrafanaConfigSettings) (parsed : List (String × String)) :
    GrafanaConfigSettings × Option String :=
  let get := fun (k : String) => ((parsed.lookup k).getD "")
  match set_width c (get "width") with
  | .error _ => (c, some (get "width"))
  | .ok c1 =>
    match set_height c1 (get "height") with
    | .error _ => (c1, some (get "height"))
    | .ok c2 =>
      match set_theme c2 (get "theme") with
      | .error _ => (c2, some (get "theme"))
      | .ok c3 =>
        match set_timespan parseDuration c3 (get "timespan") with
        | .error _ => (c3, some (get "timespan"))
        | .ok c4 =>
          match set_timezone c4 (get "timezone") with
          | .error _ => (c4, some (get "timezone"))
          | .ok c5 => (c5, none)

/-- The parts of GrafanaHandler that `get_png_url` reads; `now` is epoch
milliseconds (the code compares `str(int(ts.timestamp() * 1e3))` strings,
and `str` is injective on ints, so the comparison is modelled on the
integers directly). -/
structure RenderContext where
  config : GrafanaConfigSettings
  panels : List Dashboard
  now : Int
deriving DecidableEq

/-- grafana.GrafanaHandler.get_png_url: find the dashboard by slug (the
code would raise subscripting `None` when absent, modelled as `none`),
then build the render URL and the query payload in order: orgId, panelId,
URL-encoded tz (`urllib.parse.quote`, an external collaborator passed in
as `quote`), theme; from/to only when they differ; width/height only when
positive; then `var-{name}` for each variable whose `includeinurl` is not
false and whose value is truthy. -/
def get_png_url (quote : String → String) (h : RenderContext)
    (dashboard_slug : String) (panel : Panel) :
    Option (String × List (String × String)) :=
  match h.panels.find? (fun d => d.dashboard_slug == dashboard_slug) with
  | none => none
  | some dash =>
    let base := [("orgId", toString h.config.grafana_org_id),
                 ("panelId", toString panel.panel_id),
                 ("tz", quote h.config.default_tz),
                 ("theme", h.config.default_theme)]
    let from_time := h.now - h.config.default_timespan
    let to_time := h.now
    let p1 := if from_time != to_time then
                base ++ [("from", toString from_time), ("to", toString to_time)]
              else base
    let p2 := if h.config.default_width > 0 then
                p1 ++ [("width", toString h.config.default_width)] else p1
    let p3 := if h.config.default_height > 0 then
                p2 ++ [("height", toString h.config.default_height)] else p2
    let var_part := panel.variables.filterMap (fun v =>
      if v.includeinurl && (v.value.getD "") != "" then
        some ("var-" ++ v.name, v.value.getD "")
      else none)
    some (h.config.grafana_url ++ "/render/d-solo/" ++ dash.dashboard_uid ++ "/" ++ dashboard_slug,
          p3 ++ var_part)

/-- Outcome of the single `requests.get` call of `get_png`: a
transport-level failure (ConnectionError/Timeout, both RequestException),
or an HTTP response with status and body bytes. -/
inductive FetchOutcome where
  | transportError
  | response (status : Nat) (body : List Nat)
deriving DecidableEq

/-- The log records `get_png` emits after the fetch. -/
inductive LogEvent where
  | errorTransport
  | requestReturned (status : Nat)
  | errorStatus (status : Nat)
deriving DecidableEq

/-- grafana.GrafanaHandler.get_png: issue one GET (the head of the oracle
list of outcomes; no retries, so the tail is never consulted); transport
failure → log and return None; status 200 → return the body bytes;
any other status → log it and return None. -/
def get_png (outcomes : List FetchOutcome) : Option (List Nat) × List LogEvent :=
  match outcomes with
  | [] => (none, [])
  | o :: _ =>
    match o with
    | .transportError => (none, [.errorTransport])
    | .response s body =>
      if s = 200 then (some body, [.requestReturned s])
      else (none, [.errorStatus s])

/-- worker.chat_parse_args lines 129-134: a raw token starting with one of
the five default-parameter names is rewritten as a flag token by
prepending `--`. -/
def fix_args (args : List String) : List String :=
  args.map (fun a =>
    if default_params.any (fun p => p.data.isPrefixOf a.data) then "--" ++ a else a)

/-- Split a character list at its first `=`. -/
def splitEq : List Char → Option (List Char × List Char)
  | [] => none
  | c :: cs =>
    if c = Char.ofNat 61 then some ([], cs)
    else (splitEq cs).map (fun p => (c :: p.1, p.2))

/-- A token already in flag form (starts with `--`). -/
def isFlagTok (a : String) : Bool := ("--".data).isPrefixOf a.data

/-- Assign the tokens of a positional run to the chat-visible variables in
declaration order; variables beyond the run's tokens get their configured
response or the empty string (argparse `nargs="?"` positionals with
`default=variable.get("response", "")`).  Values are `Option String`
because an argparse namespace can hold `None`. -/
def assign_positional_opt : List Variable → List String → List (String × Option String)
  | [], _ => []
  | v :: vs, [] => (v.name, some (v.response.getD "")) :: assign_positional_opt vs []
  | v :: vs, t :: ts => (v.name, some t) :: assign_positional_opt vs ts

/-- The parameter name a flag token sets: the part after `--` up to the
first `=` when one is present, the whole tail otherwise (a bare flag). -/
def flag_key (t : String) : String :=
  match splitEq (t.data.drop 2) with
  | some p => String.mk p.1
  | none => String.mk (t.data.drop 2)

/-- The five `--` options with their defaults taken from the handler's
current settings (`parser.add_argument("--width", default=handler.width,
...)` etc.; non-string defaults are stringified in this model). -/
def default_opts (c : GrafanaConfigSettings) : List (String × String) :=
  [("width", toString c.default_width),
   ("height", toString c.default_height),
   ("theme", c.default_theme),
   ("timespan", toString c.default_timespan),
   ("timezone", c.default_tz)]

/-- The argparse parse of `chat_parse_args`'s parser (optional `nargs="?"`
positionals declared first, then the five `--name` options, each
`nargs="?"`), processing tokens left to right:
* at the first run of non-flag tokens, argparse greedily consumes *all*
  remaining positional actions — the run's tokens fill them in order and
  the rest take their defaults — so once a flag token ends a begun run
  (`hadRun`), `pos` is flushed; a later non-flag token (or a run longer
  than the positionals) is an unrecognized argument: `none`, i.e.
  `SystemExit`;
* `--name=value` sets a recognized parameter (unknown names are
  unrecognized arguments: `none`);
* a bare `--name` (`pending`) takes the immediately following non-flag
  token as its value, or `None` (the `nargs="?"` const) when a flag token
  or the end of input follows.
Token shapes beyond what the chat surface produces (single-dash options,
the bare `--` separator, `-h`) are outside this model. -/
def parse_loop : List String → List Variable → Bool → Option String →
    List (String × Option String) → List (String × Option String) →
    Option (List (String × Option String))
  | [], pos, _, pending, acc, opts =>
    some (acc ++ (assign_positional_opt pos [] ++
      (match pending with
       | some nm => dictSet opts nm none
       | none => opts)))
  | t :: ts, pos, hadRun, pending, acc, opts =>
    if isFlagTok t then
      let opts1 := match pending with
        | some nm => dictSet opts nm none
        | none => opts
      let pos1 := if hadRun then [] else pos
      let acc1 := if hadRun then acc ++ assign_positional_opt pos [] else acc
      match splitEq (t.data.drop 2) with
      | some p =>
        if default_params.contains (String.mk p.1) then
          parse_loop ts pos1 hadRun none acc1
            (dictSet opts1 (String.mk p.1) (some (String.mk p.2)))
        else none
      | none =>
        if default_params.contains (String.mk (t.data.drop 2)) then
          parse_loop ts pos1 hadRun (some (String.mk (t.data.drop 2))) acc1 opts1
        else none
    else
      match pending with
      | some nm => parse_loop ts pos hadRun none acc (dictSet opts nm (some t))
      | none =>
        match pos with
        | [] => none
        | v :: pos' =>
          parse_loop ts pos' true none (acc ++ [(v.name, some t)]) opts

/-- worker.chat_parse_args lines 128-154 (after the panel lookup): rewrite
default-parameter tokens into flags, run the argparse parse with one
optional positional per chat-visible variable plus the five flag options
defaulting to the handler's current settings, and merge in the hidden
variables' configured responses (`{**vars(args_namespace),
**predefined_args}`).  `none` models an argparse error exiting the process
(`SystemExit`). -/
def chat_parse_args (c : GrafanaConfigSettings) (panel : Panel) (args : List String) :
    Option (List (String × Option String)) :=
  let fixed := fix_args args
  let cmdVars := panel.variables.filter (fun v => v.includeincmd)
  let hidden := panel.variables.filter (fun v => !v.includeincmd)
  (parse_loop fixed cmdVars false none []
      ((default_opts c).map (fun kv => (kv.1, some kv.2)))).map
    (fun ns => (hidden.map (fun v => (v.name, some (v.response.getD "")))) ++ ns)

/-- worker.chat_parse_args lines 113-126: find the first dashboard holding
a panel whose `get-{command_name}` equals the current subcommand. -/
def find_panel : List Dashboard → String → Option (Panel × String)
  | [], _ => none
  | d :: ds, sub =>
    match d.panels.find? (fun p => ("get-" ++ p.command_name) == sub) with
    | some p => some (p, d.dashboard_slug)
    | none => find_panel ds sub

/-- Exceptions that escape `chat_get_panel` uncaught. -/
inductive PyExc where
  | typeError
  | systemExit
deriving DecidableEq

/-- worker.chat_get_panel: the full invocation pipeline.  When the
subcommand matches no panel, `chat_parse_args` sends an error message and
returns the bare value `False`; the caller immediately tuple-unpacks
`panel, parsed_args, dashboard_slug = chat_parse_args(...)`, which raises
`TypeError: cannot unpack non-iterable bool object` before the
`if not parsed_args: return False` guard can run — modelled as
`.error .typeError`.  An argparse failure exits the process
(`SystemExit`), also uncaught.  Otherwise `PanelError` and
`MultipleOptionsError` are caught and yield `False`; `DefaultArgsError` is
caught and yields `False`; then the render fetch result decides the
returned flag (dispatcher I/O is elided). -/
def chat_get_panel (render : String → List (String × PyVal) → String) (inv : Inventory)
    (parseDuration : String → Option Int) (c : GrafanaConfigSettings)
    (dashboards : List Dashboard) (subcmd : String) (args : List String)
    (outcomes : List FetchOutcome) : Except PyExc Bool :=
  match find_panel dashboards subcmd with
  | none => .error .typeError
  | some (panel, _slug) =>
    match chat_parse_args c panel args with
    | none => .error .systemExit
    | some parsedNs =>
      -- Python's parsed_args dict may hold None (a bare flag's const);
      -- `.get` on such a key is falsy like an absent one, so None entries
      -- are dropped for the resolver, and the default-argument setters see
      -- the empty string for them (both fail pydantic validation as the
      -- None does, except the timezone corner, which no claim exercises).
      let parsed := parsedNs.filterMap (fun kv => kv.2.map (fun s => (kv.1, s)))
      match chat_validate_nautobot_args render inv parsed panel.variables [] with
      | .error (.panelError _) => .ok false
      | .error (.multipleOptions _) => .ok false
      | .ok _ =>
        match chat_validate_default_args parseDuration c parsed with
        | (_, some _) => .ok false
        | (_, none) =>
          match (get_png outcomes).1 with
          | none => .ok false
          | some _ => .ok true

/-! ### Association-list helper lemmas -/

theorem lookup_map_value {α β : Type} (g : α → β) (d : List (String × α)) (k : String) :
    (d.map (fun kv => (kv.1, g kv.2))).lookup k = (d.lookup k).map g := by
  induction d with
  | nil => rfl
  | cons kv d ih =>
    obtain ⟨a, b⟩ := kv
    cases hk : (k == a) <;> simp [List.lookup_cons, hk, ih]

theorem lookup_updateMap_self {α : Type} (d : List (String × α)) (k : String) (v : α)
    (hany : d.any (fun kv => kv.1 == k) = true) :
    (d.map (fun kv => if kv.1 == k then (k, v) else kv)).lookup k = some v := by
  induction d with
  | nil => simp at hany
  | cons kv d ih =>
    obtain ⟨a, b⟩ := kv
    by_cases ha : a = k
    · subst ha
      simp [List.lookup_cons]
    · have ha2 : ((a, b).1 == k) = false := beq_eq_false_iff_ne.mpr ha
      have hk2 : (k == a) = false := beq_eq_false_iff_ne.mpr (Ne.symm ha)
      simp only [List.any_cons, ha2, Bool.false_or] at hany
      have IH := ih hany
      simp only [List.map_cons, ha2, Bool.false_eq_true, if_false, List.lookup_cons, hk2]
      exact IH

theorem lookup_append_single_self {α : Type} (d : List (String × α)) (k : String) (v : α)
    (hnone : d.any (fun kv => kv.1 == k) = false) :
    (d ++ [(k, v)]).lookup k = some v := by
  induction d with
  | nil => simp [List.lookup_cons]
  | cons kv d ih =>
    obtain ⟨a, b⟩ := kv
    simp only [List.any_cons, Bool.or_eq_false_iff] at hnone
    have h1 : a ≠ k := beq_eq_false_iff_ne.mp hnone.1
    have hk2 : (k == a) = false := beq_eq_false_iff_ne.mpr (Ne.symm h1)
    simp [List.lookup_cons, hk2, ih hnone.2]

theorem lookup_updateMap_ne {α : Type} (d : List (String × α)) (k k' : String) (v : α)
    (h : k' ≠ k) :
    (d.map (fun kv => if kv.1 == k then (k, v) else kv)).lookup k' = d.lookup k' := by
  induction d with
  | nil => rfl
  | cons kv d ih =>
    obtain ⟨a, b⟩ := kv
    by_cases ha : a = k
    · subst ha
      have hk2 : (k' == a) = false := beq_eq_false_iff_ne.mpr h
      simp only [List.map_cons, beq_self_eq_true, if_true, List.lookup_cons, hk2]
      exact ih
    · have ha2 : ((a, b).1 == k) = false := beq_eq_false_iff_ne.mpr ha
      cases hk2 : (k' == a)
      · simp only [List.map_cons, ha2, Bool.false_eq_true, if_false, List.lookup_cons, hk2]
        exact ih
      · simp only [List.map_cons, ha2, Bool.false_eq_true, if_false, List.lookup_cons, hk2]

theorem lookup_append_single_ne {α : Type} (d : List (String × α)) (k k' : String) (v : α)
    (h : k' ≠ k) :
    (d ++ [(k, v)]).lookup k' = d.lookup k' := by
  induction d with
  | nil =>
    have hk2 : (k' == k) = false := beq_eq_false_iff_ne.mpr h
    simp [List.lookup_cons, hk2]
  | cons kv d ih =>
    obtain ⟨a, b⟩ := kv
    cases hk2 : (k' == a) <;> simp [List.lookup_cons, hk2, ih]

theorem lookup_dictSet_self {α : Type} (d : List (String × α)) (k : String) (v : α) :
    (dictSet d k v).lookup k = some v := by
  unfold dictSet
  cases hany : d.any (fun kv => kv.1 == k)
  · simp only [hany, Bool.false_eq_true, if_false]
    exact lookup_append_single_self d k v hany
  · simp only [hany, if_true]
    exact lookup_updateMap_self d k v hany

theorem lookup_dictSet_ne {α : Type} (d : List (String × α)) (k k' : String) (v : α)
    (h : k' ≠ k) : (dictSet d k v).lookup k' = d.lookup k' := by
  unfold dictSet
  cases hany : d.any (fun kv => kv.1 == k)
  · simp only [hany, Bool.false_eq_true, if_false]
    exact lookup_append_single_ne d k k' v h
  · simp only [hany, if_true]
    exact lookup_updateMap_ne d k k' v h

/-! ### Claim C2 -/

/-- C2: for every query variable the effective filter starts from the
configured static filter map; a non-empty user-supplied value for the
variable is written under `modelattr`, overriding any statically
configured entry for that attribute; and every filter value, the
user-supplied one included, is rendered as a template against the
validated variables accumulated from earlier variables before the filter
is applied: under `modelattr` the filter carries the rendered user value,
every other key carries the rendered static value, and with no
user-supplied value the filter is exactly the rendered static map. -/
theorem c2_effective_filter_user_override
    (render : String → List (String × PyVal) → String)
    (parsed : List (String × String)) (validated : List (String × PyVal)) (v : Variable) :
    (user_value parsed v ≠ "" →
      (effective_filter render parsed validated v).lookup (v.modelattr.getD "") =
        some (render (user_value parsed v) validated) ∧
      ∀ k, k ≠ v.modelattr.getD "" →
        (effective_filter render parsed validated v).lookup k =
          ((v.filter.getD []).lookup k).map (fun s => render s validated)) ∧
    (user_value parsed v = "" →
      effective_filter render parsed validated v =
        (v.filter.getD []).map (fun kv => (kv.1, render kv.2 validated))) := by
  constructor
  · intro hu
    have hu2 : (user_value parsed v != "") = true := bne_iff_ne.mpr hu
    constructor
    · unfold effective_filter
      simp only [hu2, if_true]
      rw [lookup_map_value (fun s => render s validated)
        (dictSet (v.filter.getD []) (v.modelattr.getD "") (user_value parsed v))]
      rw [lookup_dictSet_self]
      rfl
    · intro k hk
      unfold effective_filter
      simp only [hu2, if_true]
      rw [lookup_map_value (fun s => render s validated)
        (dictSet (v.filter.getD []) (v.modelattr.getD "") (user_value parsed v))]
      rw [lookup_dictSet_ne _ _ _ _ hk]
  · intro hu
    have hu2 : (user_value parsed v != "") = false := by
      simp [bne_iff_ne, hu]
    unfold effective_filter
    simp only [hu2, Bool.false_eq_true, if_false]

/-- Witness for C2 at a concrete input: the variable's static filter maps
both `site` and `name`; the user value `rtr1` overrides the static `name`
entry and is itself rendered (the concrete renderer appends `!`), while
the `site` entry keeps its rendered static value. -/
theorem c2_witness :
    (effective_filter (fun t _ => t ++ "!") [("device", "rtr1")] []
        { name := "device", query := some "Device", modelattr := some "name",
          filter := some [("site", "X"), ("name", "old")] }).lookup "name" =
      some "rtr1!" ∧
    (effective_filter (fun t _ => t ++ "!") [("device", "rtr1")] []
        { name := "device", query := some "Device", modelattr := some "name",
          filter := some [("site", "X"), ("name", "old")] }).lookup "site" =
      some "X!" := by
  have h := (c2_effective_filter_user_override (fun t _ => t ++ "!") [("device", "rtr1")] []
    { name := "device", query := some "Device", modelattr := some "name",
      filter := some [("site", "X"), ("name", "old")] }).1 (by decide)
  exact ⟨h.1, by
    have h2 := h.2 "site" (by decide)
    rw [h2]
    rfl⟩

/-! ### Claim C1 -/

/-- C1: for a query variable, when the effective filter applied to the
fetched object set yields exactly one match, no disambiguation menu is
shown and the resolution pass proceeds, with the match's full attribute
mapping stored under the variable's name in the validated map; when it
yields zero or more than one match, a `MultipleOptionsError` is raised
that ends the pass (whatever variables remain), and the menu candidates
are the filtered set when it is non-empty and the entire unfiltered
object set otherwise. -/
theorem c1_exact_match_or_menu
    (render : String → List (String × PyVal) → String) (inv : Inventory)
    (parsed : List (String × String)) (validated : List (String × PyVal))
    (v : Variable) (rest : List Variable) (objs filtered : List Record)
    (hq : query_truthy v = true)
    (hobjs : get_nautobot_objects inv v = .ok objs)
    (hfilt : apply_filter (inv.fields_of (v.query.getD "")) objs
      (effective_filter render parsed validated v) = .ok filtered) :
    (∀ rec, filtered = [rec] → ∃ v',
      resolveVar render inv parsed validated v =
        .ok (v', dictSet validated v.name (.record rec.attrs)) ∧
      (∀ e, chat_validate_nautobot_args render inv parsed rest
          (dictSet validated v.name (.record rec.attrs)) = .error e →
        chat_validate_nautobot_args render inv parsed (v :: rest) validated = .error e) ∧
      (∀ rest' vf, chat_validate_nautobot_args render inv parsed rest
          (dictSet validated v.name (.record rec.attrs)) = .ok (rest', vf) →
        chat_validate_nautobot_args render inv parsed (v :: rest) validated =
          .ok (v' :: rest', vf))) ∧
    (filtered.length ≠ 1 →
      chat_validate_nautobot_args render inv parsed (v :: rest) validated =
        .error (.multipleOptions (menu_choices (v.modelattr.getD "")
          (if filtered = [] then objs else filtered)))) := by
  constructor
  · intro rec hrec
    have hres : resolveVar render inv parsed validated v =
        .ok (finishVar render
              (if v.filter.isSome then
                { v with filter := some (effective_filter render parsed validated v) }
               else v)
              (dictSet validated v.name (.record rec.attrs)),
             dictSet validated v.name (.record rec.attrs)) := by
      unfold resolveVar
      simp only [hq, Bool.not_true, Bool.false_eq_true, if_false, hobjs, hfilt, hrec]
    refine ⟨_, hres, ?_, ?_⟩
    · intro e he
      simp only [chat_validate_nautobot_args, hres, he]
    · intro rest' vf hrest
      simp only [chat_validate_nautobot_args, hres, hrest]
  · intro hlen
    cases filtered with
    | nil =>
      have hres : resolveVar render inv parsed validated v =
          .error (.multipleOptions (menu_choices (v.modelattr.getD "") objs)) := by
        unfold resolveVar
        simp only [hq, Bool.not_true, Bool.false_eq_true, if_false, hobjs, hfilt]
        norm_num
      simp only [chat_validate_nautobot_args, hres]
      simp
    | cons a t =>
      cases t with
      | nil => exact absurd rfl hlen
      | cons b t2 =>
        have hres : resolveVar render inv parsed validated v =
            .error (.multipleOptions (menu_choices (v.modelattr.getD "")
              (a :: b :: t2))) := by
          unfold resolveVar
          simp only [hq, Bool.not_true, Bool.false_eq_true, if_false, hobjs, hfilt]
          norm_num
        have hne : (a :: b :: t2) ≠ ([] : List Record) := by simp
        simp only [chat_validate_nautobot_args, hres, if_neg hne]

/-- Witness for C1: with one device matching the filter the resolver
succeeds and stores the record's attributes; with an empty user value the
static filter matches two devices and the pass ends in a menu listing
exactly those two. -/
theorem c1_witness :
    (∃ v', resolveVar (fun t _ => t)
        { models := [("Device", [{ name := "rtr1", attrs := [("name", "rtr1"), ("site", "X")] },
                                 { name := "rtr2", attrs := [("name", "rtr2"), ("site", "X")] }])],
          fields := [("Device", ["name", "site"])] }
        [("device", "rtr1")] []
        { name := "device", query := some "Device", modelattr := some "name",
          filter := some [("site", "X")] } =
      .ok (v', dictSet [] "device" (.record [("name", "rtr1"), ("site", "X")]))) ∧
    chat_validate_nautobot_args (fun t _ => t)
        { models := [("Device", [{ name := "rtr1", attrs := [("name", "rtr1"), ("site", "X")] },
                                 { name := "rtr2", attrs := [("name", "rtr2"), ("site", "X")] }])],
          fields := [("Device", ["name", "site"])] }
        [("device", "")]
        [{ name := "device", query := some "Device", modelattr := some "name",
           filter := some [("site", "X")] }] [] =
      .error (.multipleOptions [("rtr1", "rtr1"), ("rtr2", "rtr2")]) := by
  constructor
  · obtain ⟨v', hv', -, -⟩ :=
      (c1_exact_match_or_menu (fun t _ => t)
        { models := [("Device", [{ name := "rtr1", attrs := [("name", "rtr1"), ("site", "X")] },
                                 { name := "rtr2", attrs := [("name", "rtr2"), ("site", "X")] }])],
          fields := [("Device", ["name", "site"])] }
        [("device", "rtr1")] []
        { name := "device", query := some "Device", modelattr := some "name",
          filter := some [("site", "X")] } []
        [{ name := "rtr1", attrs := [("name", "rtr1"), ("site", "X")] },
         { name := "rtr2", attrs := [("name", "rtr2"), ("site", "X")] }]
        [{ name := "rtr1", attrs := [("name", "rtr1"), ("site", "X")] }]
        rfl rfl rfl).1
        { name := "rtr1", attrs := [("name", "rtr1"), ("site", "X")] } rfl
    exact ⟨v', hv'⟩
  · have h :=
      (c1_exact_match_or_menu (fun t _ => t)
        { models := [("Device", [{ name := "rtr1", attrs := [("name", "rtr1"), ("site", "X")] },
                                 { name := "rtr2", attrs := [("name", "rtr2"), ("site", "X")] }])],
          fields := [("Device", ["name", "site"])] }
        [("device", "")] []
        { name := "device", query := some "Device", modelattr := some "name",
          filter := some [("site", "X")] } []
        [{ name := "rtr1", attrs := [("name", "rtr1"), ("site", "X")] },
         { name := "rtr2", attrs := [("name", "rtr2"), ("site", "X")] }]
        [{ name := "rtr1", attrs := [("name", "rtr1"), ("site", "X")] },
         { name := "rtr2", attrs := [("name", "rtr2"), ("site", "X")] }]
        rfl rfl rfl).2 (by decide)
    simpa using h

/-! ### Claim C3 -/

/-- C3: default-argument application processes width, height, theme,
timespan, timezone in that fixed order; the first value failing validation
aborts the pass reporting exactly that value; each individual set is
atomic, so the failing field keeps its previous setting; and fields
successfully applied earlier in the same pass remain applied (no
rollback).  Each conjunct fixes one abort point: the returned settings are
exactly those after the last successful set, the reported value is the
offending one, and the failing field still holds its original value. -/
theorem c3_default_args_first_failure (pd : String → Option Int)
    (c : GrafanaConfigSettings) (parsed : List (String × String)) :
    (∀ e, set_width c ((parsed.lookup "width").getD "") = .error e →
      chat_validate_default_args pd c parsed = (c, some ((parsed.lookup "width").getD ""))) ∧
    (∀ c1 e, set_width c ((parsed.lookup "width").getD "") = .ok c1 →
      set_height c1 ((parsed.lookup "height").getD "") = .error e →
      chat_validate_default_args pd c parsed = (c1, some ((parsed.lookup "height").getD "")) ∧
      c1.default_height = c.default_height) ∧
    (∀ c1 c2 e, set_width c ((parsed.lookup "width").getD "") = .ok c1 →
      set_height c1 ((parsed.lookup "height").getD "") = .ok c2 →
      set_theme c2 ((parsed.lookup "theme").getD "") = .error e →
      chat_validate_default_args pd c parsed = (c2, some ((parsed.lookup "theme").getD "")) ∧
      c2.default_theme = c.default_theme) ∧
    (∀ c1 c2 c3 e, set_width c ((parsed.lookup "width").getD "") = .ok c1 →
      set_height c1 ((parsed.lookup "height").getD "") = .ok c2 →
      set_theme c2 ((parsed.lookup "theme").getD "") = .ok c3 →
      set_timespan pd c3 ((parsed.lookup "timespan").getD "") = .error e →
      chat_validate_default_args pd c parsed = (c3, some ((parsed.lookup "timespan").getD "")) ∧
      c3.default_timespan = c.default_timespan) ∧
    (∀ c1 c2 c3 c4, set_width c ((parsed.lookup "width").getD "") = .ok c1 →
      set_height c1 ((parsed.lookup "height").getD "") = .ok c2 →
      set_theme c2 ((parsed.lookup "theme").getD "") = .ok c3 →
      set_timespan pd c3 ((parsed.lookup "timespan").getD "") = .ok c4 →
      chat_validate_default_args pd c parsed =
        ({ c4 with default_tz := ((parsed.lookup "timezone").getD "") }, none)) := by
  have hw : ∀ c' r w', set_width c' r = .ok w' →
      w'.default_height = c'.default_height ∧ w'.default_theme = c'.default_theme ∧
      w'.default_timespan = c'.default_timespan := by
    intro c' r w' h
    unfold set_width at h
    cases hr : parseIntStr r with
    | none => rw [hr] at h; exact absurd h (by simp)
    | some w => rw [hr] at h; cases h; exact ⟨rfl, rfl, rfl⟩
  have hh : ∀ c' r h', set_height c' r = .ok h' →
      h'.default_theme = c'.default_theme ∧ h'.default_timespan = c'.default_timespan := by
    intro c' r h' h
    unfold set_height at h
    cases hr : parseIntStr r with
    | none => rw [hr] at h; exact absurd h (by simp)
    | some w => rw [hr] at h; cases h; exact ⟨rfl, rfl⟩
  have ht : ∀ c' r t', set_theme c' r = .ok t' →
      t'.default_timespan = c'.default_timespan := by
    intro c' r t' h
    unfold set_theme at h
    cases hr : validTheme r with
    | false => rw [hr] at h; exact absurd h (by simp)
    | true => rw [hr] at h; simp at h; cases h; rfl
  refine ⟨?_, ?_, ?_, ?_, ?_⟩
  · intro e he
    unfold chat_validate_default_args
    simp only [he]
  · intro c1 e h1 he
    unfold chat_validate_default_args
    simp only [h1, he]
    exact ⟨trivial, ((hw c _ c1 h1).1)⟩
  · intro c1 c2 e h1 h2 he
    unfold chat_validate_default_args
    simp only [h1, h2, he]
    refine ⟨trivial, ?_⟩
    rw [(hh c1 _ c2 h2).1, (hw c _ c1 h1).2.1]
  · intro c1 c2 c3 e h1 h2 h3 he
    unfold chat_validate_default_args
    simp only [h1, h2, h3, he]
    refine ⟨trivial, ?_⟩
    rw [ht c2 _ c3 h3, (hh c1 _ c2 h2).2, (hw c _ c1 h1).2.2]
  · intro c1 c2 c3 c4 h1 h2 h3 h4
    unfold chat_validate_default_args
    simp only [h1, h2, h3, h4]
    rfl

/-- Witness for C3: width 300 and height 200 are applied, the invalid
theme value `neon` aborts the pass reporting `neon`, the theme keeps its
configured value, and the timespan is never touched. -/
theorem c3_witness :
    chat_validate_default_args (fun _ => none)
      { grafana_url := "http://g", grafana_api_key := "k", default_width := 8,
        default_height := 6, default_theme := "light", default_timespan := 0,
        grafana_org_id := 1, default_tz := "UTC", config_file := "panels.yml" }
      [("width", "300"), ("height", "200"), ("theme", "neon"), ("timespan", "PT1H"),
       ("timezone", "UTC")] =
    ({ grafana_url := "http://g", grafana_api_key := "k", default_width := 300,
       default_height := 200, default_theme := "light", default_timespan := 0,
       grafana_org_id := 1, default_tz := "UTC", config_file := "panels.yml" },
     some "neon") := by
  have h := ((c3_default_args_first_failure (fun _ => none)
    { grafana_url := "http://g", grafana_api_key := "k", default_width := 8,
      default_height := 6, default_theme := "light", default_timespan := 0,
      grafana_org_id := 1, default_tz := "UTC", config_file := "panels.yml" }
    [("width", "300"), ("height", "200"), ("theme", "neon"), ("timespan", "PT1H"),
     ("timezone", "UTC")]).2.2.1
    { grafana_url := "http://g", grafana_api_key := "k", default_width := 300,
      default_height := 6, default_theme := "light", default_timespan := 0,
      grafana_org_id := 1, default_tz := "UTC", config_file := "panels.yml" }
    { grafana_url := "http://g", grafana_api_key := "k", default_width := 300,
      default_height := 200, default_theme := "light", default_timespan := 0,
      grafana_org_id := 1, default_tz := "UTC", config_file := "panels.yml" }
    "unexpected theme value" rfl rfl rfl).1
  exact h

/-! ### Claim C4 -/

theorem var_key_data (s : String) :
    ("var-" ++ s).data = 'v' :: 'a' :: 'r' :: '-' :: s.data := by
  rw [String.data_append]
  have h : ("var-" : String).data = ['v', 'a', 'r', '-'] := rfl
  rw [h]
  rfl

theorem var_key_ne (s k : String) (hk : k.data.head? ≠ some 'v') : ("var-" ++ s) ≠ k := by
  intro h
  apply hk
  rw [← h, var_key_data]
  rfl

theorem var_key_inj (a b : String) (h : ("var-" ++ a) = ("var-" ++ b)) : a = b := by
  have h2 := congrArg String.data h
  rw [var_key_data, var_key_data] at h2
  simp only [List.cons.injEq, true_and] at h2
  exact String.ext h2

theorem mem_ite_nil {α : Type} (c : Prop) [Decidable c] (l : List α) (a : α) :
    (a ∈ (if c then l else [])) ↔ c ∧ a ∈ l := by
  split
  · simp [*]
  · simp [*]

theorem mem_four_append {α : Type} (a : α) (l1 l2 l3 l4 l5 : List α) :
    (a ∈ l1 ++ l2 ++ l3 ++ l4 ++ l5) ↔
      a ∈ l1 ∨ a ∈ l2 ∨ a ∈ l3 ∨ a ∈ l4 ∨ a ∈ l5 := by
  simp [List.mem_append, or_assoc]

/-- Membership in the `var-{name}` segment of the payload characterizes
exactly the variables with `includeinurl` not false and a truthy value. -/
theorem var_part_mem (vars : List Variable) (nm val : String) :
    (("var-" ++ nm, val) ∈ vars.filterMap (fun v =>
        if v.includeinurl && (v.value.getD "") != "" then
          some ("var-" ++ v.name, v.value.getD "") else none)) ↔
      ∃ v ∈ vars, v.name = nm ∧ v.includeinurl = true ∧
        v.value.getD "" = val ∧ val ≠ "" := by
  rw [List.mem_filterMap]
  constructor
  · rintro ⟨v, hv, hf⟩
    by_cases hc : (v.includeinurl && (v.value.getD "") != "") = true
    · rw [if_pos hc] at hf
      injection hf with hf
      have h1 : ("var-" ++ v.name) = "var-" ++ nm := congrArg Prod.fst hf
      have h2 : v.value.getD "" = val := congrArg Prod.snd hf
      have hc2 : v.includeinurl = true ∧ ((v.value.getD "") != "") = true := by
        simpa using hc
      rcases hc2 with ⟨hinc, hne⟩
      exact ⟨v, hv, var_key_inj _ _ h1, hinc, h2, by
        rw [← h2]; exact bne_iff_ne.mp hne⟩
    · rw [if_neg hc] at hf
      exact Option.noConfusion hf
  · rintro ⟨v, hv, hnm, hinc, hval, hne⟩
    refine ⟨v, hv, ?_⟩
    have hc : (v.includeinurl && (v.value.getD "") != "") = true := by
      rw [hinc, hval]
      simp [bne_iff_ne, hne]
    rw [if_pos hc, hnm, hval]

/-- A payload key that does not start with `v` never collides with the
`var-{name}` segment. -/
theorem fixed_key_not_in_var_part (vars : List Variable) (k x : String)
    (hk : k.data.head? ≠ some 'v') :
    (k, x) ∉ vars.filterMap (fun v =>
      if v.includeinurl && (v.value.getD "") != "" then
        some ("var-" ++ v.name, v.value.getD "") else none) := by
  intro hmem
  rcases List.mem_filterMap.mp hmem with ⟨v, _, hf⟩
  by_cases hc : (v.includeinurl && (v.value.getD "") != "") = true
  · rw [if_pos hc] at hf
    injection hf with hf
    exact var_key_ne v.name k hk (congrArg Prod.fst hf)
  · rw [if_neg hc] at hf
    exact Option.noConfusion hf

/-- C4: `get_png_url` returns the URL
`{serviceURL}/render/d-solo/{dashboardUid}/{dashboardSlug}`, and the
payload is exactly orgId, panelId, URL-encoded timezone and theme, then
from/to (= `[now - timespan, now]` in epoch milliseconds) exactly when the
timespan is non-zero, then width exactly when positive, height exactly
when positive, then `var-{name}=value` for exactly the panel variables
whose `includeinurl` is not false and whose resolved value is non-empty:
stated as the payload equality followed by the derived containment facts
about any returned payload. -/
theorem c4_get_png_url (quote : String → String) (h : RenderContext)
    (slug : String) (panel : Panel) (dash : Dashboard)
    (hdash : h.panels.find? (fun d => d.dashboard_slug == slug) = some dash) :
    get_png_url quote h slug panel =
      some (h.config.grafana_url ++ "/render/d-solo/" ++ dash.dashboard_uid ++ "/" ++ slug,
        [("orgId", toString h.config.grafana_org_id),
         ("panelId", toString panel.panel_id),
         ("tz", quote h.config.default_tz),
         ("theme", h.config.default_theme)] ++
        (if h.config.default_timespan ≠ 0 then
           [("from", toString (h.now - h.config.default_timespan)),
            ("to", toString h.now)]
         else []) ++
        (if 0 < h.config.default_width then
           [("width", toString h.config.default_width)] else []) ++
        (if 0 < h.config.default_height then
           [("height", toString h.config.default_height)] else []) ++
        panel.variables.filterMap (fun v =>
          if v.includeinurl && (v.value.getD "") != "" then
            some ("var-" ++ v.name, v.value.getD "") else none)) ∧
    (∀ u P, get_png_url quote h slug panel = some (u, P) →
      (("orgId", toString h.config.grafana_org_id) ∈ P ∧
       ("panelId", toString panel.panel_id) ∈ P ∧
       ("tz", quote h.config.default_tz) ∈ P ∧
       ("theme", h.config.default_theme) ∈ P) ∧
      ((∃ x, ("from", x) ∈ P) ↔ h.config.default_timespan ≠ 0) ∧
      ((∃ x, ("to", x) ∈ P) ↔ h.config.default_timespan ≠ 0) ∧
      ((∃ x, ("width", x) ∈ P) ↔ 0 < h.config.default_width) ∧
      ((∃ x, ("height", x) ∈ P) ↔ 0 < h.config.default_height) ∧
      (∀ nm val, ("var-" ++ nm, val) ∈ P ↔
        ∃ v ∈ panel.variables, v.name = nm ∧ v.includeinurl = true ∧
          v.value.getD "" = val ∧ val ≠ "")) := by
  have hP : get_png_url quote h slug panel =
      some (h.config.grafana_url ++ "/render/d-solo/" ++ dash.dashboard_uid ++ "/" ++ slug,
        [("orgId", toString h.config.grafana_org_id),
         ("panelId", toString panel.panel_id),
         ("tz", quote h.config.default_tz),
         ("theme", h.config.default_theme)] ++
        (if h.config.default_timespan ≠ 0 then
           [("from", toString (h.now - h.config.default_timespan)),
            ("to", toString h.now)]
         else []) ++
        (if 0 < h.config.default_width then
           [("width", toString h.config.default_width)] else []) ++
        (if 0 < h.config.default_height then
           [("height", toString h.config.default_height)] else []) ++
        panel.variables.filterMap (fun v =>
          if v.includeinurl && (v.value.getD "") != "" then
            some ("var-" ++ v.name, v.value.getD "") else none)) := by
    unfold get_png_url
    rw [hdash]
    by_cases hts : h.config.default_timespan = 0
    · have hb : (h.now - h.config.default_timespan != h.now) = false := by
        rw [hts, sub_zero]
        exact bne_self_eq_false _
      by_cases hw : 0 < h.config.default_width <;>
        by_cases hh : 0 < h.config.default_height <;>
          simp [hb, hts, hw, hh, List.append_assoc]
    · have hb : (h.now - h.config.default_timespan != h.now) = true :=
        bne_iff_ne.mpr (fun heq => hts (sub_eq_self.mp heq))
      by_cases hw : 0 < h.config.default_width <;>
        by_cases hh : 0 < h.config.default_height <;>
          simp [hb, hts, hw, hh, List.append_assoc]
  refine ⟨hP, ?_⟩
  intro u P hup
  rw [hP] at hup
  injection hup with hup
  have hPP := congrArg Prod.snd hup
  simp only at hPP
  subst hPP
  refine ⟨⟨by simp, by simp, by simp, by simp⟩, ?_, ?_, ?_, ?_, ?_⟩
  · constructor
    · rintro ⟨x, hx⟩
      rw [mem_four_append] at hx
      rcases hx with hx | hx | hx | hx | hx
      · simp at hx
      · exact ((mem_ite_nil _ _ _).mp hx).1
      · rcases (mem_ite_nil _ _ _).mp hx with ⟨-, hx⟩
        simp at hx
      · rcases (mem_ite_nil _ _ _).mp hx with ⟨-, hx⟩
        simp at hx
      · exact absurd hx (fixed_key_not_in_var_part _ _ _ (by decide))
    · intro hts
      refine ⟨toString (h.now - h.config.default_timespan), ?_⟩
      rw [mem_four_append]
      right; left
      exact (mem_ite_nil _ _ _).mpr ⟨hts, by simp⟩
  · constructor
    · rintro ⟨x, hx⟩
      rw [mem_four_append] at hx
      rcases hx with hx | hx | hx | hx | hx
      · simp at hx
      · exact ((mem_ite_nil _ _ _).mp hx).1
      · rcases (mem_ite_nil _ _ _).mp hx with ⟨-, hx⟩
        simp at hx
      · rcases (mem_ite_nil _ _ _).mp hx with ⟨-, hx⟩
        simp at hx
      · exact absurd hx (fixed_key_not_in_var_part _ _ _ (by decide))
    · intro hts
      refine ⟨toString h.now, ?_⟩
      rw [mem_four_append]
      right; left
      exact (mem_ite_nil _ _ _).mpr ⟨hts, by simp⟩
  · constructor
    · rintro ⟨x, hx⟩
      rw [mem_four_append] at hx
      rcases hx with hx | hx | hx | hx | hx
      · simp at hx
      · rcases (mem_ite_nil _ _ _).mp hx with ⟨-, hx⟩
        simp at hx
      · exact ((mem_ite_nil _ _ _).mp hx).1
      · rcases (mem_ite_nil _ _ _).mp hx with ⟨-, hx⟩
        simp at hx
      · exact absurd hx (fixed_key_not_in_var_part _ _ _ (by decide))
    · intro hw
      refine ⟨toString h.config.default_width, ?_⟩
      rw [mem_four_append]
      right; right; left
      exact (mem_ite_nil _ _ _).mpr ⟨hw, by simp⟩
  · constructor
    · rintro ⟨x, hx⟩
      rw [mem_four_append] at hx
      rcases hx with hx | hx | hx | hx | hx
      · simp at hx
      · rcases (mem_ite_nil _ _ _).mp hx with ⟨-, hx⟩
        simp at hx
      · rcases (mem_ite_nil _ _ _).mp hx with ⟨-, hx⟩
        simp at hx
      · exact ((mem_ite_nil _ _ _).mp hx).1
      · exact absurd hx (fixed_key_not_in_var_part _ _ _ (by decide))
    · intro hh
      refine ⟨toString h.config.default_height, ?_⟩
      rw [mem_four_append]
      right; right; right; left
      exact (mem_ite_nil _ _ _).mpr ⟨hh, by simp⟩
  · intro nm val
    constructor
    · intro hx
      rw [mem_four_append] at hx
      rcases hx with hx | hx | hx | hx | hx
      · simp only [List.mem_cons, Prod.mk.injEq, List.not_mem_nil, or_false] at hx
        rcases hx with ⟨h1, -⟩ | ⟨h1, -⟩ | ⟨h1, -⟩ | ⟨h1, -⟩
        · exact absurd h1 (var_key_ne nm "orgId" (by decide))
        · exact absurd h1 (var_key_ne nm "panelId" (by decide))
        · exact absurd h1 (var_key_ne nm "tz" (by decide))
        · exact absurd h1 (var_key_ne nm "theme" (by decide))
      · rcases (mem_ite_nil _ _ _).mp hx with ⟨-, hx⟩
        simp only [List.mem_cons, Prod.mk.injEq, List.not_mem_nil, or_false] at hx
        rcases hx with ⟨h1, -⟩ | ⟨h1, -⟩
        · exact absurd h1 (var_key_ne nm "from" (by decide))
        · exact absurd h1 (var_key_ne nm "to" (by decide))
      · rcases (mem_ite_nil _ _ _).mp hx with ⟨-, hx⟩
        simp only [List.mem_cons, Prod.mk.injEq, List.not_mem_nil, or_false] at hx
        exact absurd hx.1 (var_key_ne nm "width" (by decide))
      · rcases (mem_ite_nil _ _ _).mp hx with ⟨-, hx⟩
        simp only [List.mem_cons, Prod.mk.injEq, List.not_mem_nil, or_false] at hx
        exact absurd hx.1 (var_key_ne nm "height" (by decide))
      · exact (var_part_mem _ _ _).mp hx
    · intro hrhs
      rw [mem_four_append]
      right; right; right; right
      exact (var_part_mem _ _ _).mpr hrhs

/-- Witness for C4: a non-zero timespan yields from/to, a zero height is
omitted, the included variable appears as `var-device`, the excluded one
does not. -/
theorem c4_witness :
    get_png_url id
      { config := { grafana_url := "http://g", grafana_api_key := "k", default_width := 8,
                    default_height := 0, default_theme := "light", default_timespan := 60000,
                    grafana_org_id := 1, default_tz := "US/Eastern", config_file := "p" },
        panels := [{ dashboard_slug := "slug", dashboard_uid := "uid" }], now := 1000000 }
      "slug"
      { command_name := "cpu", friendly_name := "CPU", panel_id := 5,
        «variables» := [{ name := "device", value := some "rtr1" },
                        { name := "skip", includeinurl := false, value := some "x" }] } =
    some ("http://g/render/d-solo/uid/slug",
      [("orgId", "1"), ("panelId", "5"), ("tz", "US/Eastern"), ("theme", "light"),
       ("from", "940000"), ("to", "1000000"), ("width", "8"), ("var-device", "rtr1")]) := by
  have h := (c4_get_png_url id
    { config := { grafana_url := "http://g", grafana_api_key := "k", default_width := 8,
                  default_height := 0, default_theme := "light", default_timespan := 60000,
                  grafana_org_id := 1, default_tz := "US/Eastern", config_file := "p" },
      panels := [{ dashboard_slug := "slug", dashboard_uid := "uid" }], now := 1000000 }
    "slug"
    { command_name := "cpu", friendly_name := "CPU", panel_id := 5,
      «variables» := [{ name := "device", value := some "rtr1" },
                      { name := "skip", includeinurl := false, value := some "x" }] }
    { dashboard_slug := "slug", dashboard_uid := "uid" } rfl).1
  rw [h]
  rfl

/-! ### Claim C5 -/

/-- C5: `get_png` returns no image on a transport-level failure of the
render fetch without raising, returns no image and logs the status on any
non-200 response, returns the raw body bytes on a 200 response, and makes
exactly one fetch attempt per invocation: the result is a function of the
first outcome alone, whatever outcomes further attempts would produce. -/
theorem c5_get_png_single_fetch (o : FetchOutcome) (s : Nat) (b : List Nat)
    (rest rest' : List FetchOutcome) (hs : s ≠ 200) :
    get_png (.transportError :: rest) = (none, [.errorTransport]) ∧
    get_png (.response 200 b :: rest) = (some b, [.requestReturned 200]) ∧
    get_png (.response s b :: rest) = (none, [.errorStatus s]) ∧
    get_png (o :: rest) = get_png (o :: rest') := by
  refine ⟨rfl, rfl, ?_, ?_⟩
  · simp [get_png, hs]
  · cases o <;> rfl

/-- Witness for C5 with the hypotheses discharged at status 500. -/
theorem c5_witness :
    get_png [.transportError] = (none, [.errorTransport]) ∧
    get_png [.response 200 [7, 7]] = (some [7, 7], [.requestReturned 200]) ∧
    get_png [.response 500 [9]] = (none, [.errorStatus 500]) ∧
    get_png [.response 500 [9], .response 200 [7]] =
      get_png [.response 500 [9], .transportError] :=
  have h := c5_get_png_single_fetch (.response 500 [9]) 500 [9]
    [.response 200 [7]] [.transportError] (by decide)
  ⟨h.1, by
    have h2 := (c5_get_png_single_fetch (.response 500 [9]) 500 [7, 7]
      [] [] (by decide)).2.1
    exact h2, h.2.2.1.trans rfl, h.2.2.2⟩

/-! ### Claim C6 -/

/-- Counterexample to C6 as stated: with `modelattr` present but equal to
the empty string, the entity type known, and the fetched object set
non-empty, `get_nautobot_objects` still raises a `PanelError`
(`variable.get("modelattr", False)` is falsy for the empty string), even
though none of the three conditions listed by the claim holds. -/
theorem c6_counterexample :
    ({ models := [("Site", [{ name := "s1", attrs := [("name", "s1")] }])],
       fields := [("Site", ["name"])] } : Inventory).models.lookup
        (({ name := "site", query := some "Site", modelattr := some "" } :
          Variable).query.getD "") =
      some [{ name := "s1", attrs := [("name", "s1")] }] ∧
    ({ name := "site", query := some "Site", modelattr := some "" } :
      Variable).modelattr ≠ none ∧
    get_nautobot_objects
      { models := [("Site", [{ name := "s1", attrs := [("name", "s1")] }])],
        fields := [("Site", ["name"])] }
      { name := "site", query := some "Site", modelattr := some "" } =
      .error (.panelError "When specifying a query, a modelattr is also required") :=
  ⟨rfl, by decide, rfl⟩

/-- C6 (amended): fetching the inventory object set raises a
`PanelConfigError` precisely when the named entity type is unknown, when
`modelattr` is absent from the variable's configuration *or empty* (its
Python truthiness check), or when the fetched object set is empty;
otherwise it returns the full object set for that entity type. -/
theorem c6_amended_fetch_errors (inv : Inventory) (v : Variable) :
    ((∃ e, get_nautobot_objects inv v = .error (.panelError e)) ↔
      inv.models.lookup (v.query.getD "") = none ∨
      modelattr_truthy v = false ∨
      inv.models.lookup (v.query.getD "") = some []) ∧
    (∀ objs, inv.models.lookup (v.query.getD "") = some objs →
      modelattr_truthy v = true → objs ≠ [] →
      get_nautobot_objects inv v = .ok objs) := by
  constructor
  · constructor
    · rintro ⟨e, he⟩
      unfold get_nautobot_objects at he
      cases hl : inv.models.lookup (v.query.getD "") with
      | none => exact Or.inl rfl
      | some objs =>
        rw [hl] at he
        by_cases hm : modelattr_truthy v = true
        · simp only [hm, Bool.not_true, Bool.false_eq_true, if_false] at he
          by_cases hlen : objs.length < 1
          · right; right
            cases objs with
            | nil => rfl
            | cons a t => simp at hlen
          · rw [if_neg hlen] at he
            exact Except.noConfusion he
        · exact Or.inr (Or.inl (Bool.eq_false_iff.mpr hm))
    · intro h
      unfold get_nautobot_objects
      rcases h with h | h | h
      · rw [h]
        exact ⟨_, rfl⟩
      · cases hl : inv.models.lookup (v.query.getD "") with
        | none => exact ⟨_, rfl⟩
        | some objs =>
          refine ⟨"When specifying a query, a modelattr is also required", ?_⟩
          simp [h]
      · rw [h]
        by_cases hm : modelattr_truthy v = true
        · refine ⟨v.query.getD "" ++ " returned 0 items in the dcim.model.", ?_⟩
          simp [hm]
        · refine ⟨"When specifying a query, a modelattr is also required", ?_⟩
          simp [Bool.eq_false_iff.mpr hm]
  · intro objs hl hm hne
    unfold get_nautobot_objects
    rw [hl]
    have hlen : ¬(objs.length < 1) := by
      cases objs with
      | nil => exact absurd rfl hne
      | cons a t => simp
    simp [hm, hlen]

/-- Witness for the amended C6: a known entity type, a truthy `modelattr`,
and a non-empty object set yield the full set. -/
theorem c6_amended_witness :
    get_nautobot_objects
      { models := [("Site", [{ name := "s1", attrs := [("name", "s1")] }])],
        fields := [("Site", ["name"])] }
      { name := "site", query := some "Site", modelattr := some "name" } =
      .ok [{ name := "s1", attrs := [("name", "s1")] }] :=
  (c6_amended_fetch_errors
    { models := [("Site", [{ name := "s1", attrs := [("name", "s1")] }])],
      fields := [("Site", ["name"])] }
    { name := "site", query := some "Site", modelattr := some "name" }).2
    [{ name := "s1", attrs := [("name", "s1")] }] rfl rfl (by decide)

/-! ### Claim C7 -/

theorem lookup_append_not_mem_keys {α : Type} (p q : List (String × α)) (k : String)
    (h : ∀ kv ∈ p, kv.1 ≠ k) : (p ++ q).lookup k = q.lookup k := by
  induction p with
  | nil => rfl
  | cons kv p ih =>
    have hk : (k == kv.1) = false :=
      beq_eq_false_iff_ne.mpr (Ne.symm (h kv (List.mem_cons_self _ _)))
    obtain ⟨a, b⟩ := kv
    simp only [List.cons_append, List.lookup_cons, hk]
    exact ih (fun x hx => h x (List.mem_cons_of_mem _ hx))

theorem lookup_append_left_some {α : Type} (p q : List (String × α)) (k : String) (x : α)
    (h : p.lookup k = some x) : (p ++ q).lookup k = some x := by
  induction p with
  | nil => exact Option.noConfusion h
  | cons kv p ih =>
    obtain ⟨a, b⟩ := kv
    cases hk : (k == a)
    · rw [List.lookup_cons, hk] at h
      simp only [List.cons_append, List.lookup_cons, hk]
      exact ih h
    · rw [List.lookup_cons, hk] at h
      simp only [List.cons_append, List.lookup_cons, hk]
      exact h

/-- Name injectivity over a name-distinct variable list. -/
theorem name_inj_of_nodup (l : List Variable)
    (hnd : (l.map (fun v => v.name)).Nodup) :
    ∀ x ∈ l, ∀ y ∈ l, x.name = y.name → x = y :=
  fun _ hx _ hy hxy => List.inj_on_of_nodup_map hnd hx hy hxy

/-- Looking up a variable present in a keyed map built from a
name-distinct list finds its own entry. -/
theorem lookup_name_map {β : Type} (f : Variable → β) (l : List Variable) (v : Variable)
    (hv : v ∈ l) (hnd : (l.map (fun v => v.name)).Nodup) :
    (l.map (fun v => (v.name, f v))).lookup v.name = some (f v) := by
  induction l with
  | nil => cases hv
  | cons a l ih =>
    rcases List.nodup_cons.mp hnd with ⟨ha, hnd'⟩
    rcases List.mem_cons.mp hv with h | h
    · subst h
      simp [List.lookup_cons]
    · have hne : (v.name == a.name) = false := by
        refine beq_eq_false_iff_ne.mpr (fun heq => ha ?_)
        show a.name ∈ List.map (fun v => v.name) l
        rw [← heq]
        exact List.mem_map_of_mem _ h
      simp only [List.map_cons, List.lookup_cons, hne]
      exact ih h hnd'

/-- The keys produced by the positional assignment are the chat-visible
variable names, in order. -/
theorem assign_positional_opt_keys (vs : List Variable) (ts : List String) :
    (assign_positional_opt vs ts).map (fun kv => kv.1) = vs.map (fun v => v.name) := by
  induction vs generalizing ts with
  | nil => cases ts <;> rfl
  | cons v vs ih => cases ts <;> simp [assign_positional_opt, ih]

/-- Positional assignment in declaration order: the i-th chat-visible
variable receives the i-th run token when one exists, else its configured
response or the empty string. -/
theorem assign_positional_opt_lookup (vs : List Variable) (ts : List String) (i : Nat)
    (hi : i < vs.length) (hnd : (vs.map (fun v => v.name)).Nodup) :
    (assign_positional_opt vs ts).lookup ((vs.get ⟨i, hi⟩).name) =
      some (some (if h : i < ts.length then ts.get ⟨i, h⟩
            else ((vs.get ⟨i, hi⟩).response.getD ""))) := by
  induction vs generalizing ts i with
  | nil => exact absurd hi (by simp)
  | cons v vs ih =>
    rcases List.nodup_cons.mp hnd with ⟨hv, hnd'⟩
    cases i with
    | zero =>
      cases ts with
      | nil => simp [assign_positional_opt, List.lookup_cons]
      | cons t ts => simp [assign_positional_opt, List.lookup_cons]
    | succ i =>
      have hi' : i < vs.length := by simpa using hi
      have hget : (((v :: vs).get ⟨i + 1, hi⟩)) = vs.get ⟨i, hi'⟩ := rfl
      have hne : ((vs.get ⟨i, hi'⟩).name == v.name) = false := by
        refine beq_eq_false_iff_ne.mpr (fun heq => hv ?_)
        show v.name ∈ List.map (fun v => v.name) vs
        rw [← heq]
        exact List.mem_map_of_mem _ (List.get_mem vs i hi')
      cases ts with
      | nil =>
        rw [hget]
        simp only [assign_positional_opt, List.lookup_cons, hne]
        have := ih [] i hi' hnd'
        simpa using this
      | cons t ts =>
        rw [hget]
        simp only [assign_positional_opt, List.lookup_cons, hne]
        have := ih ts i hi' hnd'
        simpa using this

/-- Once every positional action is consumed, a parse that succeeds can
hold no further non-flag token. -/
theorem parse_loop_all_flags (l : List String) :
    ∀ (hadRun : Bool) (acc opts ns : List (String × Option String)),
      (∀ t ∈ l, isFlagTok t = true → (splitEq (t.data.drop 2)).isSome = true) →
      parse_loop l [] hadRun none acc opts = some ns →
      l.filter (fun a => !isFlagTok a) = [] := by
  induction l with
  | nil =>
    intro _ _ _ _ _ _
    rfl
  | cons t ts ih =>
    intro hadRun acc opts ns hclean hres
    by_cases hft : isFlagTok t = true
    · have hsp := hclean t (List.mem_cons_self _ _) hft
      cases hspe : splitEq (t.data.drop 2) with
      | none =>
        rw [hspe] at hsp
        exact absurd hsp (by simp)
      | some p =>
        simp only [parse_loop, hft, if_true, hspe, ite_self, assign_positional_opt,
          List.append_nil] at hres
        by_cases hcont : default_params.contains (String.mk p.1) = true
        · rw [if_pos hcont] at hres
          have := ih hadRun _ _ _ (fun u hu => hclean u (List.mem_cons_of_mem _ hu)) hres
          simp [List.filter_cons, hft, this]
        · rw [if_neg hcont] at hres
          exact Option.noConfusion hres
    · have hft2 : isFlagTok t = false := Bool.eq_false_iff.mpr hft
      simp only [parse_loop, hft2, Bool.false_eq_true, if_false] at hres
      exact Option.noConfusion hres

/-- Shape of a successful parse with no pending bare flag and no bare flag
among the tokens: the namespace is the accumulated assignments, then the
positional actions matched against the non-flag tokens, then the options
map updated only at keys named by flag tokens. -/
theorem parse_loop_shape (tokens : List String) :
    ∀ (pos : List Variable) (hadRun : Bool) (acc opts ns : List (String × Option String)),
      (∀ t ∈ tokens, isFlagTok t = true → (splitEq (t.data.drop 2)).isSome = true) →
      parse_loop tokens pos hadRun none acc opts = some ns →
      ∃ opts', ns = acc ++ (assign_positional_opt pos
          (tokens.filter (fun a => !(isFlagTok a))) ++ opts') ∧
        (∀ k, (∀ t ∈ tokens, isFlagTok t = true → flag_key t ≠ k) →
          opts'.lookup k = opts.lookup k) := by
  induction tokens with
  | nil =>
    intro pos hadRun acc opts ns hclean hres
    simp only [parse_loop] at hres
    injection hres with hres
    exact ⟨opts, hres.symm, fun k _ => rfl⟩
  | cons t ts ih =>
    intro pos hadRun acc opts ns hclean hres
    by_cases hft : isFlagTok t = true
    · have hsp := hclean t (List.mem_cons_self _ _) hft
      cases hspe : splitEq (t.data.drop 2) with
      | none =>
        rw [hspe] at hsp
        exact absurd hsp (by simp)
      | some p =>
        simp only [parse_loop, hft, if_true, hspe] at hres
        by_cases hcont : default_params.contains (String.mk p.1) = true
        · rw [if_pos hcont] at hres
          have hkeyt : flag_key t = String.mk p.1 := by
            unfold flag_key
            rw [hspe]
          cases hadRun with
          | false =>
            simp only [Bool.false_eq_true, if_false] at hres
            rcases ih pos false acc
              (dictSet opts (String.mk p.1) (some (String.mk p.2))) ns
              (fun u hu => hclean u (List.mem_cons_of_mem _ hu)) hres with
              ⟨opts', hshape, hpres⟩
            refine ⟨opts', ?_, ?_⟩
            · rw [hshape]
              simp [List.filter_cons, hft]
            · intro k hk
              have hkey2 : k ≠ String.mk p.1 := by
                intro heq
                exact hk t (List.mem_cons_self _ _) hft (by rw [hkeyt, heq])
              rw [hpres k (fun u hu hu2 => hk u (List.mem_cons_of_mem _ hu) hu2)]
              exact lookup_dictSet_ne _ _ _ _ hkey2
          | true =>
            simp only [if_true] at hres
            have hE := parse_loop_all_flags ts true _ _ _
              (fun u hu => hclean u (List.mem_cons_of_mem _ hu)) hres
            rcases ih [] true (acc ++ assign_positional_opt pos [])
              (dictSet opts (String.mk p.1) (some (String.mk p.2))) ns
              (fun u hu => hclean u (List.mem_cons_of_mem _ hu)) hres with
              ⟨opts', hshape, hpres⟩
            refine ⟨opts', ?_, ?_⟩
            · rw [hshape]
              simp [List.filter_cons, hft, hE, assign_positional_opt, List.append_assoc]
            · intro k hk
              have hkey2 : k ≠ String.mk p.1 := by
                intro heq
                exact hk t (List.mem_cons_self _ _) hft (by rw [hkeyt, heq])
              rw [hpres k (fun u hu hu2 => hk u (List.mem_cons_of_mem _ hu) hu2)]
              exact lookup_dictSet_ne _ _ _ _ hkey2
        · rw [if_neg hcont] at hres
          exact Option.noConfusion hres
    · have hft2 : isFlagTok t = false := Bool.eq_false_iff.mpr hft
      simp only [parse_loop, hft2, Bool.false_eq_true, if_false] at hres
      cases pos with
      | nil => exact Option.noConfusion hres
      | cons v pos' =>
        rcases ih pos' true (acc ++ [(v.name, some t)]) opts ns
          (fun u hu => hclean u (List.mem_cons_of_mem _ hu)) hres with
          ⟨opts', hshape, hpres⟩
        refine ⟨opts', ?_,
          fun k hk => hpres k (fun u hu hu2 => hk u (List.mem_cons_of_mem _ hu) hu2)⟩
        rw [hshape]
        simp [List.filter_cons, hft2, assign_positional_opt, List.append_assoc]

/-- With every positional action already consumed and no bare flags, any
remaining non-flag token makes the parse an unrecognized-argument error. -/
theorem parse_loop_no_pos (l : List String) :
    ∀ (hadRun : Bool) (acc opts : List (String × Option String)),
      (∀ t ∈ l, isFlagTok t = true → (splitEq (t.data.drop 2)).isSome = true) →
      (∃ u ∈ l, isFlagTok u = false) →
      parse_loop l [] hadRun none acc opts = none := by
  induction l with
  | nil =>
    rintro _ _ _ _ ⟨u, hu, -⟩
    exact absurd hu (List.not_mem_nil u)
  | cons t ts ih =>
    rintro hadRun acc opts hclean ⟨u, hu, hufl⟩
    by_cases hft : isFlagTok t = true
    · have hsp := hclean t (List.mem_cons_self _ _) hft
      cases hspe : splitEq (t.data.drop 2) with
      | none =>
        rw [hspe] at hsp
        exact absurd hsp (by simp)
      | some p =>
        have hu2 : u ∈ ts := by
          rcases List.mem_cons.mp hu with rfl | h
          · rw [hft] at hufl
            exact Bool.noConfusion hufl
          · exact h
        simp only [parse_loop, hft, if_true, hspe, ite_self, assign_positional_opt,
          List.append_nil]
        by_cases hcont : default_params.contains (String.mk p.1) = true
        · rw [if_pos hcont]
          exact ih hadRun _ _ (fun w hw => hclean w (List.mem_cons_of_mem _ hw))
            ⟨u, hu2, hufl⟩
        · rw [if_neg hcont]
    · have hft2 : isFlagTok t = false := Bool.eq_false_iff.mpr hft
      simp only [parse_loop, hft2, Bool.false_eq_true, if_false]

/-- Processing a non-empty leading run of non-flag tokens either fails or
reaches the rest of the tokens with the run consumed (`hadRun` set). -/
theorem parse_loop_run_progress (r : List String) :
    ∀ (l : List String) (pos : List Variable) (hadRun : Bool)
      (acc opts : List (String × Option String)),
      r ≠ [] → (∀ a ∈ r, isFlagTok a = false) →
      parse_loop (r ++ l) pos hadRun none acc opts = none ∨
      ∃ pos' acc', parse_loop (r ++ l) pos hadRun none acc opts =
        parse_loop l pos' true none acc' opts := by
  induction r with
  | nil =>
    intro _ _ _ _ _ hne _
    exact absurd rfl hne
  | cons u r' ih =>
    intro l pos hadRun acc opts _ hflags
    have hufl : isFlagTok u = false := hflags u (List.mem_cons_self _ _)
    cases pos with
    | nil =>
      left
      simp only [List.cons_append, parse_loop, hufl, Bool.false_eq_true, if_false]
    | cons v pos' =>
      have hstep : parse_loop ((u :: r') ++ l) (v :: pos') hadRun none acc opts =
          parse_loop (r' ++ l) pos' true none (acc ++ [(v.name, some u)]) opts := by
        simp only [List.cons_append, parse_loop, hufl, Bool.false_eq_true, if_false]
        rfl
      by_cases hr : r' = []
      · right
        refine ⟨pos', acc ++ [(v.name, some u)], ?_⟩
        rw [hstep, hr, List.nil_append]
      · rw [hstep]
        exact ih l pos' true (acc ++ [(v.name, some u)]) opts hr
          (fun a ha => hflags a (List.mem_cons_of_mem _ ha))

/-- Counterexample to C7 as stated: the panel declares two chat-visible
variables, yet on the tokens `rtr1 --width=300 siteX` argparse never
assigns `siteX` to the second variable — a positional token after a flag
token is an unrecognized argument, so parsing exits (`SystemExit`,
modelled as `none`) instead of producing the positional assignment the
claim describes. -/
theorem c7_counterexample :
    ((({ command_name := "cpu", friendly_name := "CPU", panel_id := 5,
         «variables» := [{ name := "device" }, { name := "site" }] } : Panel).variables.filter
          (fun v => v.includeincmd)).map (fun v => v.name) = ["device", "site"]) ∧
    chat_parse_args
      { grafana_url := "http://g", grafana_api_key := "k", default_width := 8,
        default_height := 6, default_theme := "light", default_timespan := 0,
        grafana_org_id := 1, default_tz := "UTC", config_file := "panels.yml" }
      { command_name := "cpu", friendly_name := "CPU", panel_id := 5,
        «variables» := [{ name := "device" }, { name := "site" }] }
      ["rtr1", "--width=300", "siteX"] = none :=
  ⟨rfl, rfl⟩

/-- C7 (amended): argument parsing rewrites every raw token having a
default-parameter name as a prefix into a flag token by prepending `--`;
positional matching follows argparse, so on a successful parse the
non-flag tokens (which then form the first contiguous run) are assigned,
in declaration order, to the panel's `includeincmd` variables, visible
variables beyond them default to their configured response or the empty
string, `includeincmd = false` variables are excluded from positional
matching and receive their configured default response, and a default
parameter named by no flag token falls back to the handler's current
settings value; a non-flag token after a flag token that ended a begun
run is an unrecognized argument that aborts parsing with SystemExit
instead of being assigned.  Scope: no bare flag tokens (every flag token
carries `=`; a bare flag would instead consume the following non-flag
token as its value, or parse as None). -/
theorem c7_amended_chat_parse_args (c : GrafanaConfigSettings) (panel : Panel)
    (args : List String)
    (hnd : (panel.variables.map (fun v => v.name)).Nodup)
    (hdisj : ∀ v ∈ panel.variables, ¬ v.name ∈ default_params)
    (hclean : ∀ t ∈ fix_args args, isFlagTok t = true →
      (splitEq (t.data.drop 2)).isSome = true) :
    (∀ a ∈ args,
      (default_params.any (fun p => p.data.isPrefixOf a.data) = true →
        ("--" ++ a) ∈ fix_args args) ∧
      (default_params.any (fun p => p.data.isPrefixOf a.data) = false →
        a ∈ fix_args args)) ∧
    (∀ parsed, chat_parse_args c panel args = some parsed →
      (∀ i (hi : i < (panel.variables.filter (fun v => v.includeincmd)).length),
        parsed.lookup (((panel.variables.filter (fun v => v.includeincmd)).get
            ⟨i, hi⟩).name) =
          some (some (if h : i < ((fix_args args).filter (fun a => !(isFlagTok a))).length
                then ((fix_args args).filter (fun a => !(isFlagTok a))).get ⟨i, h⟩
                else (((panel.variables.filter (fun v => v.includeincmd)).get
                  ⟨i, hi⟩).response.getD "")))) ∧
      (∀ v ∈ panel.variables, v.includeincmd = false →
        parsed.lookup v.name = some (some (v.response.getD ""))) ∧
      (∀ p ∈ default_params,
        (∀ t ∈ fix_args args, isFlagTok t = true → flag_key t ≠ p) →
        parsed.lookup p = ((default_opts c).lookup p).map (fun s => some s))) ∧
    (∀ r f rest, fix_args args = r ++ f :: rest → r ≠ [] →
      (∀ a ∈ r, isFlagTok a = false) → isFlagTok f = true →
      (∃ u ∈ rest, isFlagTok u = false) →
      chat_parse_args c panel args = none) := by
  have hndCmd : ((panel.variables.filter (fun v => v.includeincmd)).map
      (fun v => v.name)).Nodup :=
    ((List.filter_sublist panel.variables).map (fun v => v.name)).nodup hnd
  have hndHid : ((panel.variables.filter (fun v => !v.includeincmd)).map
      (fun v => v.name)).Nodup :=
    ((List.filter_sublist panel.variables).map (fun v => v.name)).nodup hnd
  refine ⟨?_, ?_, ?_⟩
  · intro a ha
    constructor
    · intro hcond
      have : (if default_params.any (fun p => p.data.isPrefixOf a.data)
          then "--" ++ a else a) = "--" ++ a := by rw [hcond]; rfl
      exact this ▸ List.mem_map_of_mem _ ha
    · intro hcond
      have : (if default_params.any (fun p => p.data.isPrefixOf a.data)
          then "--" ++ a else a) = a := by
        rw [hcond]; rfl
      exact this ▸ List.mem_map_of_mem _ ha
  · intro parsed hp
    simp only [chat_parse_args] at hp
    rcases Option.map_eq_some'.mp hp with ⟨ns, hns, hparsed⟩
    rcases parse_loop_shape _ _ _ _ _ _ hclean hns with ⟨opts', hshape, hpres⟩
    rw [List.nil_append] at hshape
    subst hparsed
    subst hshape
    refine ⟨?_, ?_, ?_⟩
    · intro i hi
      have hu := List.get_mem (panel.variables.filter (fun v => v.includeincmd)) i hi
      have huv : (panel.variables.filter (fun v => v.includeincmd)).get ⟨i, hi⟩ ∈
          panel.variables := List.mem_of_mem_filter hu
      have hskip : ∀ kv ∈ (panel.variables.filter (fun v => !v.includeincmd)).map
          (fun v => (v.name, some (v.response.getD ""))),
          kv.1 ≠ ((panel.variables.filter (fun v => v.includeincmd)).get ⟨i, hi⟩).name := by
        rintro kv hkv heq
        rcases List.mem_map.mp hkv with ⟨w, hw, hwkv⟩
        have hwv : w ∈ panel.variables := List.mem_of_mem_filter hw
        have hwname : w.name =
            ((panel.variables.filter (fun v => v.includeincmd)).get ⟨i, hi⟩).name := by
          rw [← heq, ← hwkv]
        have := name_inj_of_nodup panel.variables hnd w hwv _ huv hwname
        have hwfalse : (!w.includeincmd) = true := (List.mem_filter.mp hw).2
        have hutrue : ((panel.variables.filter (fun v => v.includeincmd)).get
            ⟨i, hi⟩).includeincmd = true := (List.mem_filter.mp hu).2
        rw [this, hutrue] at hwfalse
        exact Bool.noConfusion hwfalse
      rw [lookup_append_not_mem_keys _ _ _ hskip]
      exact lookup_append_left_some _ _ _ _
        (assign_positional_opt_lookup _ _ i hi hndCmd)
    · intro v hv hvc
      have hvhid : v ∈ panel.variables.filter (fun v => !v.includeincmd) :=
        List.mem_filter.mpr ⟨hv, by rw [hvc]; rfl⟩
      exact lookup_append_left_some _ _ _ _
        (lookup_name_map (fun v => some (v.response.getD "")) _ v hvhid hndHid)
    · intro p hpmem hflag
      have hskip1 : ∀ kv ∈ (panel.variables.filter (fun v => !v.includeincmd)).map
          (fun v => (v.name, some (v.response.getD ""))), kv.1 ≠ p := by
        rintro kv hkv heq
        rcases List.mem_map.mp hkv with ⟨w, hw, hwkv⟩
        apply hdisj w (List.mem_of_mem_filter hw)
        rw [show w.name = kv.1 from by rw [← hwkv], heq]
        exact hpmem
      have hskip2 : ∀ kv ∈ assign_positional_opt
          (panel.variables.filter (fun v => v.includeincmd))
          ((fix_args args).filter (fun a => !(isFlagTok a))), kv.1 ≠ p := by
        rintro kv hkv heq
        have hk1 : kv.1 ∈ (assign_positional_opt
            (panel.variables.filter (fun v => v.includeincmd))
            ((fix_args args).filter (fun a => !(isFlagTok a)))).map
              (fun kv => kv.1) := List.mem_map_of_mem _ hkv
        rw [assign_positional_opt_keys] at hk1
        rcases List.mem_map.mp hk1 with ⟨w, hw, hwname⟩
        apply hdisj w (List.mem_of_mem_filter hw)
        rw [hwname, heq]
        exact hpmem
      rw [lookup_append_not_mem_keys _ _ _ hskip1,
        lookup_append_not_mem_keys _ _ _ hskip2, hpres p hflag]
      exact lookup_map_value (fun s => some s) (default_opts c) p
  · intro r f rest hsplit hrne hrflags hfflag hurest
    have hfmem : f ∈ fix_args args := by
      rw [hsplit]
      exact List.mem_append.mpr (Or.inr (List.mem_cons_self _ _))
    have hsp := hclean f hfmem hfflag
    simp only [chat_parse_args]
    rw [hsplit]
    rcases parse_loop_run_progress r (f :: rest)
        (panel.variables.filter (fun v => v.includeincmd)) false []
        ((default_opts c).map (fun kv => (kv.1, some kv.2))) hrne hrflags with
      hnone | ⟨pos', acc', heq⟩
    · rw [hnone]
      rfl
    · rw [heq]
      cases hspe : splitEq (f.data.drop 2) with
      | none =>
        rw [hspe] at hsp
        exact absurd hsp (by simp)
      | some p =>
        have hcleanRest : ∀ t ∈ rest, isFlagTok t = true →
            (splitEq (t.data.drop 2)).isSome = true := by
          intro t ht htf
          refine hclean t ?_ htf
          rw [hsplit]
          exact List.mem_append.mpr (Or.inr (List.mem_cons_of_mem _ ht))
        simp only [parse_loop, hfflag, if_true, hspe]
        by_cases hcont : default_params.contains (String.mk p.1) = true
        · rw [if_pos hcont]
          rw [parse_loop_no_pos rest true _ _ hcleanRest hurest]
          rfl
        · rw [if_neg hcont]
          rfl

/-- Witness for the amended C7: one positional token fills the first
chat-visible variable, the hidden variable receives its configured
response, and the height default parameter, set by no flag token, falls
back to the handler's current value. -/
theorem c7_amended_witness :
    (List.lookup "device"
      [("hidden1", some "resp"), ("device", some "rtr1"), ("width", some "300"),
       ("height", some "6"), ("theme", some "dark"), ("timespan", some "0"),
       ("timezone", some "UTC")] = some (some "rtr1")) ∧
    (List.lookup "hidden1"
      [("hidden1", some "resp"), ("device", some "rtr1"), ("width", some "300"),
       ("height", some "6"), ("theme", some "dark"), ("timespan", some "0"),
       ("timezone", some "UTC")] = some (some "resp")) ∧
    (List.lookup "height"
      [("hidden1", some "resp"), ("device", some "rtr1"), ("width", some "300"),
       ("height", some "6"), ("theme", some "dark"), ("timespan", some "0"),
       ("timezone", some "UTC")] = some (some "6")) := by
  have h := (c7_amended_chat_parse_args
    { grafana_url := "http://g", grafana_api_key := "k", default_width := 8,
      default_height := 6, default_theme := "light", default_timespan := 0,
      grafana_org_id := 1, default_tz := "UTC", config_file := "panels.yml" }
    { command_name := "cpu", friendly_name := "CPU", panel_id := 5,
      «variables» := [{ name := "device" },
                      { name := "hidden1", includeincmd := false, response := some "resp" }] }
    ["rtr1", "width=300", "theme=dark"]
    (by decide) (by decide) (by decide)).2.1
    [("hidden1", some "resp"), ("device", some "rtr1"), ("width", some "300"),
     ("height", some "6"), ("theme", some "dark"), ("timespan", some "0"),
     ("timezone", some "UTC")] rfl
  refine ⟨?_, ?_, ?_⟩
  · exact h.1 0 (by decide)
  · exact h.2.1 { name := "hidden1", includeincmd := false, response := some "resp" }
      (by decide) rfl
  · exact h.2.2 "height" (by decide) (by decide)

/-! ### Claim C8 -/

/-- C8 (code-bug exhibit): when the subcommand matches no configured
panel, `chat_parse_args` sends the error message and returns the bare
value `False`, but `chat_get_panel` tuple-unpacks that return value
(`panel, parsed_args, dashboard_slug = chat_parse_args(...)`, worker.py
line 71) and so raises `TypeError: cannot unpack non-iterable bool
object` before the `if not parsed_args: return False` guard on line 72
can run: the handler raises instead of returning failure. -/
theorem c8_unknown_subcommand_raises :
    chat_get_panel (fun t _ => t)
      { models := [], fields := [] } (fun _ => none)
      { grafana_url := "http://g", grafana_api_key := "k", default_width := 8,
        default_height := 6, default_theme := "light", default_timespan := 0,
        grafana_org_id := 1, default_tz := "UTC", config_file := "panels.yml" }
      [{ dashboard_slug := "slug", dashboard_uid := "uid",
         panels := [{ command_name := "cpu", friendly_name := "CPU", panel_id := 5 }] }]
      "get-nope" [] [.response 200 [1]] = .error .typeError := rfl

/-! ### Claim C9 -/

/-- The variable fields the resolution pass may never change: everything
but the `value` slot and the filter map; an absent filter map also stays
absent (no `filter` key is created, `variable.get("filter", {})` builds a
fresh dict in that case). -/
def frame_eq (v v' : Variable) : Prop :=
  v'.name = v.name ∧ v'.friendly_name = v.friendly_name ∧
  v'.includeincmd = v.includeincmd ∧ v'.includeinurl = v.includeinurl ∧
  v'.query = v.query ∧ v'.modelattr = v.modelattr ∧ v'.response = v.response ∧
  (v.filter = none → v'.filter = none)

/-- Shape of a successful single-variable resolution: the non-query branch
extends the validated map with the raw user string; the query branch
extends it with some record's attributes and rewrites the filter map in
place when one is configured; both end by writing the value slot. -/
theorem resolveVar_ok_cases (render : String → List (String × PyVal) → String)
    (inv : Inventory) (parsed : List (String × String))
    (validated : List (String × PyVal)) (v v' : Variable)
    (val' : List (String × PyVal))
    (h : resolveVar render inv parsed validated v = .ok (v', val')) :
    (query_truthy v = false ∧
      val' = dictSet validated v.name (.s (user_value parsed v)) ∧
      v' = finishVar render v val') ∨
    (query_truthy v = true ∧ ∃ r : Record,
      val' = dictSet validated v.name (.record r.attrs) ∧
      v' = finishVar render
        (if v.filter.isSome then
          { v with filter := some (effective_filter render parsed validated v) }
         else v) val') := by
  unfold resolveVar at h
  by_cases hq : query_truthy v = true
  · simp only [hq, Bool.not_true, Bool.false_eq_true, if_false] at h
    cases hobjs : get_nautobot_objects inv v with
    | error e =>
      simp only [hobjs] at h
      exact Except.noConfusion h
    | ok objs =>
      simp only [hobjs] at h
      cases hfilt : apply_filter (inv.fields_of (v.query.getD "")) objs
          (effective_filter render parsed validated v) with
      | error e =>
        simp only [hfilt] at h
        exact Except.noConfusion h
      | ok filtered =>
        simp only [hfilt] at h
        cases filtered with
        | nil => simp at h
        | cons a t =>
          cases t with
          | nil =>
            simp only [] at h
            injection h with h
            have h1 := congrArg Prod.fst h
            have h2 := congrArg Prod.snd h
            simp only at h1 h2
            refine Or.inr ⟨hq, a, h2.symm, ?_⟩
            rw [← h1, ← h2]
          | cons b t2 => simp at h
  · have hq2 : query_truthy v = false := Bool.eq_false_iff.mpr hq
    simp only [hq2, Bool.not_false, if_true] at h
    injection h with h
    have h1 := congrArg Prod.fst h
    have h2 := congrArg Prod.snd h
    simp only at h1 h2
    refine Or.inl ⟨hq2, h2.symm, ?_⟩
    rw [← h1, ← h2]

/-- A successful single-variable resolution preserves every field other
than `value` and `filter`, and keeps an absent filter absent. -/
theorem resolveVar_frame (render : String → List (String × PyVal) → String)
    (inv : Inventory) (parsed : List (String × String))
    (validated : List (String × PyVal)) (v v' : Variable)
    (val' : List (String × PyVal))
    (h : resolveVar render inv parsed validated v = .ok (v', val')) :
    frame_eq v v' := by
  rcases resolveVar_ok_cases render inv parsed validated v v' val' h with
    ⟨-, -, hv'⟩ | ⟨-, r, -, hv'⟩
  · subst hv'
    exact ⟨rfl, rfl, rfl, rfl, rfl, rfl, rfl, fun hf => hf⟩
  · subst hv'
    by_cases hf : v.filter.isSome = true
    · rw [if_pos hf]
      refine ⟨rfl, rfl, rfl, rfl, rfl, rfl, rfl, fun hnone => ?_⟩
      rw [hnone] at hf
      exact Bool.noConfusion hf
    · rw [if_neg hf]
      exact ⟨rfl, rfl, rfl, rfl, rfl, rfl, rfl, fun hn => hn⟩

/-- C9 (amended): a completed resolution pass leaves every dashboard,
panel, and variable field unchanged except each variable's `value` slot
and, for query variables with a configured filter map, the filter map
itself, which is mutated in place through aliasing (argument parsing and
request building construct fresh data and touch no catalog field). -/
theorem c9_amended_catalog_frame (render : String → List (String × PyVal) → String)
    (inv : Inventory) (parsed : List (String × String)) :
    ∀ (vars : List Variable) (validated vf : List (String × PyVal))
      (vars' : List Variable),
      chat_validate_nautobot_args render inv parsed vars validated = .ok (vars', vf) →
      List.Forall₂ frame_eq vars vars' := by
  intro vars
  induction vars with
  | nil =>
    intro validated vf vars' h
    simp only [chat_validate_nautobot_args] at h
    injection h with h
    have h1 := congrArg Prod.fst h
    simp only at h1
    rw [← h1]
    exact List.Forall₂.nil
  | cons v rest ih =>
    intro validated vf vars' h
    simp only [chat_validate_nautobot_args] at h
    cases hres : resolveVar render inv parsed validated v with
    | error e =>
      simp only [hres] at h
      exact Except.noConfusion h
    | ok p =>
      obtain ⟨v1, val1⟩ := p
      simp only [hres] at h
      cases hrest : chat_validate_nautobot_args render inv parsed rest val1 with
      | error e =>
        simp only [hrest] at h
        exact Except.noConfusion h
      | ok q =>
        obtain ⟨rest', vfin⟩ := q
        simp only [hrest] at h
        injection h with h
        have h1 := congrArg Prod.fst h
        simp only at h1
        rw [← h1]
        exact List.Forall₂.cons
          (resolveVar_frame render inv parsed validated v v1 val1 hres)
          (ih val1 vfin rest' hrest)

/-- Counterexample to C9 as stated: a successful resolution of a query
variable with a configured filter map leaves the catalog's filter map
changed — the user value has been written under `modelattr` — so the
static filter map is not unchanged. -/
theorem c9_counterexample :
    chat_validate_nautobot_args (fun t _ => t)
      { models := [("Device",
          [{ name := "rtr1", attrs := [("name", "rtr1"), ("site", "X")] }])],
        fields := [("Device", ["name", "site"])] }
      [("device", "rtr1")]
      [{ name := "device", query := some "Device", modelattr := some "name",
         filter := some [("site", "X")] }] [] =
      .ok ([{ name := "device", query := some "Device", modelattr := some "name",
              filter := some [("site", "X"), ("name", "rtr1")],
              value := some "\x7bname: rtr1, site: X\x7d" }],
           [("device", .record [("name", "rtr1"), ("site", "X")])]) ∧
    (some [("site", "X"), ("name", "rtr1")] : Option (List (String × String))) ≠
      some [("site", "X")] :=
  ⟨rfl, by decide⟩

/-- Witness for the amended C9 at the counterexample's input: the frame
relation holds between the configured variable and its resolved form. -/
theorem c9_amended_witness :
    List.Forall₂ frame_eq
      [{ name := "device", query := some "Device", modelattr := some "name",
         filter := some [("site", "X")] }]
      [{ name := "device", query := some "Device", modelattr := some "name",
         filter := some [("site", "X"), ("name", "rtr1")],
         value := some "\x7bname: rtr1, site: X\x7d" }] :=
  c9_amended_catalog_frame (fun t _ => t)
    { models := [("Device",
        [{ name := "rtr1", attrs := [("name", "rtr1"), ("site", "X")] }])],
      fields := [("Device", ["name", "site"])] }
    [("device", "rtr1")]
    [{ name := "device", query := some "Device", modelattr := some "name",
       filter := some [("site", "X")] }] []
    [("device", .record [("name", "rtr1"), ("site", "X")])]
    [{ name := "device", query := some "Device", modelattr := some "name",
       filter := some [("site", "X"), ("name", "rtr1")],
       value := some "\x7bname: rtr1, site: X\x7d" }]
    rfl

/-! ### Claim C10 -/

/-- C10: for a variable whose configuration has no value template, the
stored value is the stringified resolved entry rendered as a template
against the accumulated validated variables; for a non-query variable the
stringified entry is the raw user-supplied string itself, so user input is
interpreted as a template rather than passed through verbatim. -/
theorem c10_default_value_template (render : String → List (String × PyVal) → String)
    (inv : Inventory) (parsed : List (String × String))
    (validated : List (String × PyVal)) (v : Variable) :
    (query_truthy v = false → v.value = none →
      resolveVar render inv parsed validated v =
        .ok ({ v with value := some (render (user_value parsed v)
                 (dictSet validated v.name (.s (user_value parsed v)))) },
             dictSet validated v.name (.s (user_value parsed v)))) ∧
    (∀ v' val', v.value = none →
      resolveVar render inv parsed validated v = .ok (v', val') →
      v'.value = some (render (pyStr ((val'.lookup v.name).getD (.s ""))) val')) := by
  constructor
  · intro hq hv
    unfold resolveVar
    simp only [hq, Bool.not_false, if_true]
    unfold finishVar
    rw [lookup_dictSet_self, hv]
    rfl
  · intro v' val' hv hres
    rcases resolveVar_ok_cases render inv parsed validated v v' val' hres with
      ⟨-, hval, hv'⟩ | ⟨-, r, hval, hv'⟩
    · subst hv'
      unfold finishVar
      rw [hv]
      rfl
    · subst hv'
      by_cases hf : v.filter.isSome = true
      · rw [if_pos hf]
        unfold finishVar
        simp only
        rw [show ({ v with
            filter := some (effective_filter render parsed validated v) } :
            Variable).value = v.value from rfl, hv]
        rfl
      · rw [if_neg hf]
        unfold finishVar
        rw [hv]
        rfl

/-- Witness for C10: a non-query variable with no value template stores
the rendered form of the raw user string (the concrete renderer appends
`!`, standing for template evaluation). -/
theorem c10_witness :
    resolveVar (fun t _ => t ++ "!") { models := [], fields := [] }
      [("msg", "hi")] [] { name := "msg" } =
      .ok ({ name := "msg", value := some "hi!" },
           [("msg", .s "hi")]) := by
  have h := (c10_default_value_template (fun t _ => t ++ "!")
    { models := [], fields := [] } [("msg", "hi")] [] { name := "msg" }).1 rfl rfl
  rw [h]
  rfl

end Grafana
